import Mathlib

/-!
Verification of the procedural telemetry and failure-injection engine of a
robotics-simulation demo server (TypeScript sources under
`src/server/services/simulation/`).

Modelling conventions, used throughout:

* JavaScript numbers are modelled as rationals (`ℚ`); where the code rounds
  (`Math.round`, `Number.prototype.toFixed`) we use `jsRound` / `toFixedQ`,
  both rounding half towards positive infinity, as JavaScript does.
* Randomness is injectable (as the design notes of the code base themselves
  request): a `RandStreams` value carries one stream `g` of standard normal
  draws — `gaussianNoise(mean, std)` becomes `mean + std * g k` for the next
  index `k` — and one stream `u` of uniform `[0,1)` draws for `Math.random()`
  used in comparisons.  Indices are threaded exactly in the source's call
  order, including short-circuit evaluation (a draw that the source skips is
  not consumed).
* The transcendental functions `Math.sin`, `Math.cos`, `Math.sqrt` and the
  constant `Math.PI` are uninterpreted parameters, bundled in a `MathOracle`.
  No verified property depends on their values; concrete evaluations
  instantiate them with dummy total functions and only ever inspect output
  components that do not depend on the oracle.
* A JavaScript runtime value that may be `undefined` is an `Option ℚ`
  (`JsNum`); a possibly-absent object key in a partial-update object is an
  outer `Option` around that.
* Strings carried only for human display (`message` fields of events and
  the run summaries) are not modelled; the machine-read fields
  (`timestamp`, `type`, `severity`, and `data.affectedComponents`, which the
  recommendation generator reads) are.
-/

/-! ## JavaScript number helpers -/

attribute [local semireducible] Rat.add Rat.sub Rat.mul Rat.inv Rat.ofScientific

/-- `Math.min(Math.max(value, lo), hi)` — the `clamp` helper of
`telemetry.ts`. -/
def clamp (value lo hi : ℚ) : ℚ := min (max value lo) hi

/-- `Math.round`: nearest integer, ties towards positive infinity. -/
def jsRound (q : ℚ) : ℤ := ⌊q + 1/2⌋

/-- Truncation towards zero, as JavaScript's `%` uses. -/
def jsTrunc (q : ℚ) : ℤ := if 0 ≤ q then ⌊q⌋ else -⌊-q⌋

/-- JavaScript's `%` on finite numbers: `a - b * trunc(a / b)`. -/
def jsFmod (a b : ℚ) : ℚ := a - b * jsTrunc (a / b)

/-- `Number(x.toFixed(digits))`: x rounded to `digits` decimal places
(nearest, ties towards positive infinity), kept as a rational. -/
def toFixedQ (digits : ℕ) (x : ℚ) : ℚ :=
  (jsRound (x * 10 ^ digits) : ℚ) / 10 ^ digits

/-- Decimal rendering of a rational to two places, mirroring
`x.toFixed(2)` string interpolation in recommendation texts. -/
def toFixed2Str (q : ℚ) : String :=
  let n : ℤ := jsRound (q * 100)
  let sign := if n < 0 then "-" else ""
  let m := n.natAbs
  let frac := m % 100
  sign ++ toString (m / 100) ++ "." ++ (if frac < 10 then "0" else "") ++ toString frac

/-- `x || d` for a possibly-missing string (JavaScript treats the empty
string as falsy). -/
def jsOrElse (o : Option String) (d : String) : String :=
  match o with
  | some s => if s = "" then d else s
  | none => d

/-- Uninterpreted `Math.sin` / `Math.cos` / `Math.sqrt` / `Math.PI`. -/
structure MathOracle where
  sin : ℚ → ℚ
  cos : ℚ → ℚ
  sqrt : ℚ → ℚ
  pi : ℚ

/-- Injectable randomness: `g` is the stream of standard normal draws
(one per `gaussianNoise` call), `u` the stream of uniform `[0,1)` draws
(one per `Math.random()` call used directly). -/
structure RandStreams where
  g : ℕ → ℚ
  u : ℕ → ℚ

/-- A concrete all-zero oracle for evaluations (no evaluated component
depends on the oracle's values). -/
def oracle0 : MathOracle := ⟨fun _ => 0, fun _ => 0, fun _ => 0, 0⟩

/-- All-zero random streams. -/
def streams0 : RandStreams := ⟨fun _ => 0, fun _ => 0⟩

/-! ## Data model (`types.ts`) -/

/-- `PhysicsConfig` of `types.ts`.  `terrain_type` is a string at runtime
(the lookup tables fall back to concrete for unknown values). -/
structure PhysicsConfig where
  gravity : ℚ
  friction_coefficient : ℚ
  terrain_type : String
  terrain_roughness : ℚ
deriving DecidableEq

/-- `DEFAULT_PHYSICS` of `types.ts`. -/
def DEFAULT_PHYSICS : PhysicsConfig :=
  { gravity := 9.81, friction_coefficient := 0.5,
    terrain_type := "concrete", terrain_roughness := 0.3 }

/-- `MotorParams` of `types.ts` as consumed by the telemetry generator
(all fields numeric). -/
structure MotorParams where
  joint_id : String
  torque_limit : ℚ
  pid_p : ℚ
  pid_i : ℚ
  pid_d : ℚ
  max_velocity : ℚ
deriving DecidableEq

/-- Event severities (`'info' | 'warning' | 'error' | 'critical'`). -/
inductive Severity where
  | info
  | warning
  | error
  | critical
deriving DecidableEq

/-- `SimulationEvent`: the machine-read fields.  `type` is a string at
runtime (injected failure scenarios are cast into it, so values outside the
declared union occur).  `affected` models `data.affectedComponents`, the
only part of `data` any later computation reads. -/
structure SimulationEvent where
  timestamp : ℤ
  type : String
  severity : Severity
  affected : List String
deriving DecidableEq

/-- Per-leg contact record of a `TelemetryFrame`. -/
structure Contact where
  leg_id : String
  in_contact : Bool
  force : ℚ
  slip_detected : Bool
deriving DecidableEq

/-- IMU block of a `TelemetryFrame`. -/
structure Imu where
  pitch : ℚ
  roll : ℚ
  yaw : ℚ
  accel_x : ℚ
  accel_y : ℚ
  accel_z : ℚ
deriving DecidableEq

/-- Power block of a `TelemetryFrame`. -/
structure Power where
  voltage : ℚ
  current : ℚ
  temperature : ℚ
deriving DecidableEq

/-- `TelemetryFrame` of `types.ts`; the joint maps are association lists in
the source's insertion order. -/
structure TelemetryFrame where
  timestamp : ℤ
  joint_positions : List (String × ℚ)
  joint_velocities : List (String × ℚ)
  joint_torques : List (String × ℚ)
  imu : Imu
  power : Power
  contacts : List Contact
deriving DecidableEq

/-- `DronePhysicsConfig` of `types.ts` (`airspace_condition` is a string at
runtime, with lookup fallback to calm). -/
structure DronePhysicsConfig where
  air_density : ℚ
  wind_speed : ℚ
  wind_direction : ℚ
  airspace_condition : String
deriving DecidableEq

/-- GPS position block of a `DroneTelemetryFrame`. -/
structure GpsPos where
  lat : ℚ
  lon : ℚ
  alt : ℚ
deriving DecidableEq

/-- Velocity block of a `DroneTelemetryFrame`. -/
structure Vel3 where
  vx : ℚ
  vy : ℚ
  vz : ℚ
deriving DecidableEq

/-- Attitude block of a `DroneTelemetryFrame`. -/
structure Attitude where
  pitch : ℚ
  roll : ℚ
  yaw : ℚ
deriving DecidableEq

/-- Battery block of a `DroneTelemetryFrame`. -/
structure Battery where
  voltage : ℚ
  current : ℚ
  remaining : ℚ
deriving DecidableEq

/-- `DroneTelemetryFrame` of `types.ts`.  `rotor_speeds` holds the
`Math.round`ed per-rotor RPM values; `gps_quality` and `signal_strength`
are likewise rounded by the source. -/
structure DroneTelemetryFrame where
  timestamp : ℤ
  position : GpsPos
  velocity : Vel3
  attitude : Attitude
  rotor_speeds : List ℤ
  battery : Battery
  gps_quality : ℤ
  signal_strength : ℤ
deriving DecidableEq

/-- `DroneSimulationEvent`: the machine-read fields, as for
`SimulationEvent`. -/
structure DroneSimulationEvent where
  timestamp : ℤ
  type : String
  severity : Severity
  affected : List String
deriving DecidableEq

/-! ## Failure injection (`failures.ts`), ground variant -/

/-- `FailureType` of `failures.ts`, in the catalog's key order. -/
inductive FailureType where
  | motor_overheat
  | slip_event
  | gait_mismatch
  | rollover
  | power_fluctuation
  | sensor_noise
  | joint_limit_exceeded
deriving DecidableEq

/-- The string stored into an event's `type` field for an injected ground
failure (the source casts the scenario's name). -/
def failureTypeName : FailureType → String
  | .motor_overheat => "motor_overheat"
  | .slip_event => "slip_event"
  | .gait_mismatch => "gait_mismatch"
  | .rollover => "rollover"
  | .power_fluctuation => "power_fluctuation"
  | .sensor_noise => "sensor_noise"
  | .joint_limit_exceeded => "joint_limit_exceeded"

/-- `Object.keys(FAILURE_SCENARIOS)` in insertion order. -/
def failureTypes : List FailureType :=
  [.motor_overheat, .slip_event, .gait_mismatch, .rollover,
   .power_fluctuation, .sensor_noise, .joint_limit_exceeded]

/-- `BASE_FAILURE_RATE` (12% per check). -/
def BASE_FAILURE_RATE : ℚ := 0.12

/-- The `sand` row of `getTerrainModifiers`. -/
def sandModifiers : FailureType → ℚ
  | .motor_overheat => 1.5
  | .slip_event => 2.0
  | .gait_mismatch => 1.3
  | .rollover => 1.4
  | .power_fluctuation => 1.2
  | .sensor_noise => 1.1
  | .joint_limit_exceeded => 1.2

/-- The `concrete` row of `getTerrainModifiers`. -/
def concreteModifiers : FailureType → ℚ
  | .motor_overheat => 0.8
  | .slip_event => 0.3
  | .gait_mismatch => 0.7
  | .rollover => 0.6
  | .power_fluctuation => 0.9
  | .sensor_noise => 0.8
  | .joint_limit_exceeded => 1.1

/-- The `grass` row of `getTerrainModifiers`. -/
def grassModifiers : FailureType → ℚ
  | .motor_overheat => 1.0
  | .slip_event => 1.2
  | .gait_mismatch => 1.0
  | .rollover => 0.9
  | .power_fluctuation => 1.0
  | .sensor_noise => 1.0
  | .joint_limit_exceeded => 0.9

/-- The `gravel` row of `getTerrainModifiers`. -/
def gravelModifiers : FailureType → ℚ
  | .motor_overheat => 1.3
  | .slip_event => 1.5
  | .gait_mismatch => 1.4
  | .rollover => 1.3
  | .power_fluctuation => 1.1
  | .sensor_noise => 1.2
  | .joint_limit_exceeded => 1.3

/-- `getTerrainModifiers`: table lookup with fallback to the concrete row
for unknown terrain strings (`modifiers[terrain] || modifiers.concrete`). -/
def getTerrainModifiers (terrain : String) : FailureType → ℚ :=
  if terrain = "sand" then sandModifiers
  else if terrain = "concrete" then concreteModifiers
  else if terrain = "grass" then grassModifiers
  else if terrain = "gravel" then gravelModifiers
  else concreteModifiers

/-- Static part of a `FailureScenario` (severity, affected components,
recoverable), from the `FAILURE_SCENARIOS` catalog. -/
structure ScenarioBase where
  severity : Severity
  affected : List String
  recoverable : Bool
deriving DecidableEq

/-- The `FAILURE_SCENARIOS` catalog of `failures.ts`. -/
def FAILURE_SCENARIOS : FailureType → ScenarioBase
  | .motor_overheat => ⟨.warning, ["leg_2_femur", "leg_5_femur"], true⟩
  | .slip_event => ⟨.warning, ["leg_1", "leg_4"], true⟩
  | .gait_mismatch => ⟨.warning, ["leg_2", "leg_5"], true⟩
  | .rollover => ⟨.critical, [], false⟩
  | .power_fluctuation => ⟨.info, [], true⟩
  | .sensor_noise => ⟨.info, [], true⟩
  | .joint_limit_exceeded => ⟨.error, ["leg_3_tibia"], true⟩

/-- A selected `FailureScenario`: the catalog entry plus its failure type
and the normalized probability the source attaches on selection. -/
structure FailureScenario where
  type : FailureType
  base : ScenarioBase
  probability : ℚ
deriving DecidableEq

/-- The context-adjusted weight of one ground failure type inside
`shouldInjectFailure` (terrain modifier times the friction / progress /
gravity scalings). -/
def groundWeight (physics : PhysicsConfig) (simulationProgress : ℚ)
    (t : FailureType) : ℚ :=
  let w := getTerrainModifiers physics.terrain_type t
  let w := if t = .slip_event then w * (1.2 - physics.friction_coefficient) else w
  let w := if t = .motor_overheat then w * (0.5 + simulationProgress) else w
  if t = .rollover then w * (physics.gravity / 9.81) * 0.3 else w

/-- The cumulative-weight selection loop shared by `shouldInjectFailure`
(lines 174–188 of `failures.ts`) and `shouldInjectDroneFailure` (lines
499–513): walk the (item, weight) list subtracting weights from the draw,
returning the first item whose cumulative weight reaches the draw. -/
def weightedSelect {α : Type} : List (α × ℚ) → ℚ → Option (α × ℚ)
  | [], _ => none
  | (a, w) :: ws, r => if r - w ≤ 0 then some (a, w) else weightedSelect ws (r - w)

/-- `shouldInjectFailure` of `failures.ts`.  `ku` is the next index into the
uniform stream; the returned index accounts for the draws the source
actually performs (none when suppressed by the severity caps, one when the
Bernoulli gate fails, two when a weighted selection runs). -/
def shouldInjectFailure (physics : PhysicsConfig) (simulationProgress : ℚ)
    (existingEvents : List SimulationEvent) (rs : RandStreams) (ku : ℕ) :
    Option FailureScenario × ℕ :=
  let criticalCount :=
    (existingEvents.filter (fun e => decide (e.severity = .critical))).length
  if criticalCount > 0 then (none, ku)
  else
    let warningCount :=
      (existingEvents.filter
        (fun e => decide (e.severity = .warning) || decide (e.severity = .error))).length
    if warningCount ≥ 3 then (none, ku)
    else if rs.u ku > BASE_FAILURE_RATE then (none, ku + 1)
    else
      let weights := failureTypes.map (groundWeight physics simulationProgress)
      let totalWeight := weights.foldl (· + ·) 0
      let r := rs.u (ku + 1) * totalWeight
      match weightedSelect (failureTypes.zip weights) r with
      | some (t, w) =>
          (some ⟨t, FAILURE_SCENARIOS t, w / totalWeight⟩, ku + 2)
      | none => (none, ku + 2)

/-- The rule-based events one sampled ground frame contributes, in the
source's push order: at most one slip event (first slipping contact), a
stability warning (|pitch| > 20, severity error only when `pitch > 25`), a
rollover (|pitch| > 30 or |roll| > 25, critical), and an overheat
(temperature > 50). -/
def groundRuleEvents (frame : TelemetryFrame) : List SimulationEvent :=
  (match frame.contacts.find? (fun c => c.slip_detected) with
   | some _ => [⟨frame.timestamp, "slip", .warning, []⟩]
   | none => []) ++
  (if |frame.imu.pitch| > 20 then
    [⟨frame.timestamp, "stability_warning",
      if frame.imu.pitch > 25 then .error else .warning, []⟩]
   else []) ++
  (if |frame.imu.pitch| > 30 ∨ |frame.imu.roll| > 25 then
    [⟨frame.timestamp, "rollover", .critical, []⟩]
   else []) ++
  (if frame.power.temperature > 50 then
    [⟨frame.timestamp, "overheat", .warning, []⟩]
   else [])

/-- One iteration of the sampling loop of `generateSimulationEvents`:
append the sampled frame's rule-based events, then possibly an injected
scenario. -/
def groundEventStep (frames : List TelemetryFrame) (physics : PhysicsConfig)
    (rs : RandStreams) (i : ℕ) (events : List SimulationEvent) (ku : ℕ) :
    List SimulationEvent × ℕ :=
  match frames.get? i with
  | none => (events, ku)
  | some frame =>
    let events := events ++ groundRuleEvents frame
    let progress : ℚ := (i : ℚ) / (frames.length : ℚ)
    match shouldInjectFailure physics progress events rs ku with
    | (some sc, ku) =>
        (events ++ [⟨frame.timestamp, failureTypeName sc.type,
                     sc.base.severity, sc.base.affected⟩], ku)
    | (none, ku) => (events, ku)

/-- The `for (let i = sampleRate; i < frames.length; i += sampleRate)` loop
of `generateSimulationEvents`, with explicit fuel: `none` means the loop has
not exited within `fuel` iterations, so `(∀ fuel, ⋯ = none)` states that the
source loop never terminates. -/
def groundEventLoop (frames : List TelemetryFrame) (physics : PhysicsConfig)
    (rs : RandStreams) (step : ℕ) :
    ℕ → ℕ → List SimulationEvent → ℕ → Option (List SimulationEvent)
  | 0, _, _, _ => none
  | fuel + 1, i, events, ku =>
    if i < frames.length then
      let r := groundEventStep frames physics rs i events ku
      groundEventLoop frames physics rs step fuel (i + step) r.1 r.2
    else some events

/-- `generateSimulationEvents` of `failures.ts`: sample every
`floor(length/10)`-th frame starting at that same index, then truncate to 10
events.  The fuel `length + 1` is sufficient whenever the stride is
positive; `none` models the source's non-termination (stride 0 with a
non-empty frame list). -/
def generateSimulationEvents (frames : List TelemetryFrame)
    (physics : PhysicsConfig) (rs : RandStreams) :
    Option (List SimulationEvent) :=
  let sampleRate := frames.length / 10
  (groundEventLoop frames physics rs sampleRate (frames.length + 1)
    sampleRate [] 0).map (List.take 10)

/-- `shouldSimulationFail` of `failures.ts`: failed iff at least one
critical-severity event. -/
def shouldSimulationFail (events : List SimulationEvent) : Bool :=
  (events.filter (fun e => decide (e.severity = .critical))).length > 0

/-! ## Recommendations (`failures.ts`) -/

/-- `[...new Set(xs)]`: deduplicate keeping first occurrences, in order. -/
def jsSetDedupAux {α : Type} [DecidableEq α] (seen : List α) :
    List α → List α
  | [] => []
  | a :: l =>
    if a ∈ seen then jsSetDedupAux seen l
    else a :: jsSetDedupAux (a :: seen) l

/-- `[...new Set(xs)]` (JavaScript `Set` iteration order is insertion
order). -/
def jsSetDedup {α : Type} [DecidableEq α] (l : List α) : List α :=
  jsSetDedupAux [] l

/-- The strings one event contributes in `generateRecommendations`
(switch on `event.type`; unmatched types contribute nothing). -/
def groundRecsFor (physics : PhysicsConfig) (e : SimulationEvent) :
    List String :=
  match e.type with
  | "slip" =>
    (if physics.friction_coefficient < 0.7 then
      ["Increase friction_coefficient to " ++
       toFixed2Str (min 1.0 (physics.friction_coefficient + 0.15)) ++
       " for " ++ physics.terrain_type ++ " terrain"]
     else []) ++
    ["Consider reducing gait speed during stance phase"]
  | "overheat" =>
    ["Reduce pid_p gain to decrease motor effort",
     "Consider implementing thermal throttling"]
  | "stability_warning" =>
    ["Lower center of mass by reducing femur joint angles",
     "Increase pid_d on affected legs to dampen oscillations"]
  | "rollover" =>
    ["Lower center of mass by reducing femur joint angles",
     "Increase pid_d on affected legs to dampen oscillations"]
  | "gait_mismatch" =>
    ["Reduce pid_p on " ++ jsOrElse (e.affected.get? 0) "leg_2" ++
     "_femur to dampen oscillation",
     "Verify gait timing synchronization"]
  | _ => []

/-- `generateRecommendations` of `failures.ts`: collect per-event strings,
remove duplicates, cap at 5. -/
def generateRecommendations (events : List SimulationEvent)
    (physics : PhysicsConfig) : List String :=
  (jsSetDedup (events.foldl (fun acc e => acc ++ groundRecsFor physics e) [])).take 5

/-! ## Failure injection (`failures.ts`), aerial variant -/

/-- `DroneFailureType` of `failures.ts`, in the catalog's key order. -/
inductive DroneFailureType where
  | motor_failure
  | gps_loss
  | low_battery
  | signal_lost
  | geofence_breach
  | wind_warning
  | obstacle_detected
  | flyaway
deriving DecidableEq

/-- The string stored into an event's `type` field for an injected drone
failure. -/
def droneFailureTypeName : DroneFailureType → String
  | .motor_failure => "motor_failure"
  | .gps_loss => "gps_loss"
  | .low_battery => "low_battery"
  | .signal_lost => "signal_lost"
  | .geofence_breach => "geofence_breach"
  | .wind_warning => "wind_warning"
  | .obstacle_detected => "obstacle_detected"
  | .flyaway => "flyaway"

/-- `Object.keys(DRONE_FAILURE_SCENARIOS)` in insertion order. -/
def droneFailureTypes : List DroneFailureType :=
  [.motor_failure, .gps_loss, .low_battery, .signal_lost,
   .geofence_breach, .wind_warning, .obstacle_detected, .flyaway]

/-- `DRONE_BASE_FAILURE_RATE` (8% per check). -/
def DRONE_BASE_FAILURE_RATE : ℚ := 0.08

/-- The `calm` row of `getAirspaceModifiers`. -/
def calmModifiers : DroneFailureType → ℚ
  | .motor_failure => 0.5
  | .gps_loss => 0.6
  | .low_battery => 1.0
  | .signal_lost => 0.7
  | .geofence_breach => 0.8
  | .wind_warning => 0.1
  | .obstacle_detected => 1.0
  | .flyaway => 0.3

/-- The `light_wind` row of `getAirspaceModifiers`. -/
def lightWindModifiers : DroneFailureType → ℚ
  | .motor_failure => 0.8
  | .gps_loss => 0.8
  | .low_battery => 1.2
  | .signal_lost => 0.9
  | .geofence_breach => 1.0
  | .wind_warning => 0.5
  | .obstacle_detected => 1.0
  | .flyaway => 0.5

/-- The `gusty` row of `getAirspaceModifiers`. -/
def gustyModifiers : DroneFailureType → ℚ
  | .motor_failure => 1.2
  | .gps_loss => 1.0
  | .low_battery => 1.5
  | .signal_lost => 1.2
  | .geofence_breach => 1.3
  | .wind_warning => 2.0
  | .obstacle_detected => 0.8
  | .flyaway => 1.0

/-- The `turbulent` row of `getAirspaceModifiers`. -/
def turbulentModifiers : DroneFailureType → ℚ
  | .motor_failure => 1.8
  | .gps_loss => 1.3
  | .low_battery => 2.0
  | .signal_lost => 1.5
  | .geofence_breach => 1.5
  | .wind_warning => 3.0
  | .obstacle_detected => 0.6
  | .flyaway => 1.5

/-- `getAirspaceModifiers`: table lookup with fallback to the calm row. -/
def getAirspaceModifiers (condition : String) : DroneFailureType → ℚ :=
  if condition = "calm" then calmModifiers
  else if condition = "light_wind" then lightWindModifiers
  else if condition = "gusty" then gustyModifiers
  else if condition = "turbulent" then turbulentModifiers
  else calmModifiers

/-- The `DRONE_FAILURE_SCENARIOS` catalog of `failures.ts`. -/
def DRONE_FAILURE_SCENARIOS : DroneFailureType → ScenarioBase
  | .motor_failure => ⟨.error, ["rotor_fr"], true⟩
  | .gps_loss => ⟨.warning, [], true⟩
  | .low_battery => ⟨.warning, [], true⟩
  | .signal_lost => ⟨.error, [], true⟩
  | .geofence_breach => ⟨.warning, [], true⟩
  | .wind_warning => ⟨.warning, [], true⟩
  | .obstacle_detected => ⟨.info, [], true⟩
  | .flyaway => ⟨.critical, [], false⟩

/-- A selected drone failure scenario. -/
structure DroneFailureScenario where
  type : DroneFailureType
  base : ScenarioBase
  probability : ℚ
deriving DecidableEq

/-- The context-adjusted weight of one drone failure type inside
`shouldInjectDroneFailure`. -/
def droneWeight (physics : DronePhysicsConfig) (flightProgress : ℚ)
    (t : DroneFailureType) : ℚ :=
  let w := getAirspaceModifiers physics.airspace_condition t
  let w := if t = .wind_warning then w * (physics.wind_speed / 5) else w
  let w := if t = .low_battery then w * (0.3 + flightProgress) else w
  let w := if t = .gps_loss then w * (1 - flightProgress * 0.3) else w
  if t = .flyaway then w * 0.1 else w

/-- `shouldInjectDroneFailure` of `failures.ts`, with the uniform stream
threaded as in `shouldInjectFailure`. -/
def shouldInjectDroneFailure (physics : DronePhysicsConfig)
    (flightProgress : ℚ) (existingEvents : List DroneSimulationEvent)
    (rs : RandStreams) (ku : ℕ) : Option DroneFailureScenario × ℕ :=
  let criticalCount :=
    (existingEvents.filter (fun e => decide (e.severity = .critical))).length
  if criticalCount > 0 then (none, ku)
  else
    let warningCount :=
      (existingEvents.filter
        (fun e => decide (e.severity = .warning) || decide (e.severity = .error))).length
    if warningCount ≥ 3 then (none, ku)
    else if rs.u ku > DRONE_BASE_FAILURE_RATE then (none, ku + 1)
    else
      let weights := droneFailureTypes.map (droneWeight physics flightProgress)
      let totalWeight := weights.foldl (· + ·) 0
      let r := rs.u (ku + 1) * totalWeight
      match weightedSelect (droneFailureTypes.zip weights) r with
      | some (t, w) =>
          (some ⟨t, DRONE_FAILURE_SCENARIOS t, w / totalWeight⟩, ku + 2)
      | none => (none, ku + 2)

/-- The rule-based events one sampled drone frame contributes, in the
source's push order: GPS quality (< 70), low battery (< 20, critical below
10), weak signal (< −70 dBm), attitude deviation (|roll| or |pitch| > 15),
and rotor-RPM variance (> 500, error above 1000). -/
def droneRuleEvents (frame : DroneTelemetryFrame) : List DroneSimulationEvent :=
  (if frame.gps_quality < 70 then
    [⟨frame.timestamp, "gps_loss",
      if frame.gps_quality < 50 then .error else .warning, []⟩]
   else []) ++
  (if frame.battery.remaining < 20 then
    [⟨frame.timestamp, "low_battery",
      if frame.battery.remaining < 10 then .critical else .warning, []⟩]
   else []) ++
  (if frame.signal_strength < -70 then
    [⟨frame.timestamp, "signal_lost", .warning, []⟩]
   else []) ++
  (if |frame.attitude.roll| > 15 ∨ |frame.attitude.pitch| > 15 then
    [⟨frame.timestamp, "wind_warning", .warning, []⟩]
   else []) ++
  (let avgRPM : ℚ := ((frame.rotor_speeds.map (fun r => (r : ℚ))).foldl (· + ·) 0) / 4
   let maxVariance : ℚ :=
     (frame.rotor_speeds.map (fun r => |(r : ℚ) - avgRPM|)).foldl max 0
   if maxVariance > 500 then
    [⟨frame.timestamp, "motor_failure",
      if maxVariance > 1000 then .error else .warning, []⟩]
   else [])

/-- One iteration of the sampling loop of `generateDroneSimulationEvents`. -/
def droneEventStep (frames : List DroneTelemetryFrame)
    (physics : DronePhysicsConfig) (rs : RandStreams) (i : ℕ)
    (events : List DroneSimulationEvent) (ku : ℕ) :
    List DroneSimulationEvent × ℕ :=
  match frames.get? i with
  | none => (events, ku)
  | some frame =>
    let events := events ++ droneRuleEvents frame
    let progress : ℚ := (i : ℚ) / (frames.length : ℚ)
    match shouldInjectDroneFailure physics progress events rs ku with
    | (some sc, ku) =>
        (events ++ [⟨frame.timestamp, droneFailureTypeName sc.type,
                     sc.base.severity, sc.base.affected⟩], ku)
    | (none, ku) => (events, ku)

/-- The sampling loop of `generateDroneSimulationEvents`, fueled exactly as
`groundEventLoop`. -/
def droneEventLoop (frames : List DroneTelemetryFrame)
    (physics : DronePhysicsConfig) (rs : RandStreams) (step : ℕ) :
    ℕ → ℕ → List DroneSimulationEvent → ℕ → Option (List DroneSimulationEvent)
  | 0, _, _, _ => none
  | fuel + 1, i, events, ku =>
    if i < frames.length then
      let r := droneEventStep frames physics rs i events ku
      droneEventLoop frames physics rs step fuel (i + step) r.1 r.2
    else some events

/-- `generateDroneSimulationEvents` of `failures.ts`. -/
def generateDroneSimulationEvents (frames : List DroneTelemetryFrame)
    (physics : DronePhysicsConfig) (rs : RandStreams) :
    Option (List DroneSimulationEvent) :=
  let sampleRate := frames.length / 10
  (droneEventLoop frames physics rs sampleRate (frames.length + 1)
    sampleRate [] 0).map (List.take 10)

/-- `shouldDroneSimulationFail` of `failures.ts`. -/
def shouldDroneSimulationFail (events : List DroneSimulationEvent) : Bool :=
  (events.filter (fun e => decide (e.severity = .critical))).length > 0

/-- The strings one event contributes in `generateDroneRecommendations`. -/
def droneRecsFor (physics : DronePhysicsConfig) (e : DroneSimulationEvent) :
    List String :=
  match e.type with
  | "motor_failure" =>
    ["Check motor and ESC connections for affected rotor",
     "Calibrate ESCs to ensure synchronized response"]
  | "gps_loss" =>
    ["Consider GPS/visual odometry fusion for improved positioning",
     "Avoid flying near structures that cause multipath interference"]
  | "low_battery" =>
    ["Reduce flight time or use higher capacity battery",
     "Monitor power consumption and optimize flight profile"]
  | "signal_lost" =>
    ["Check antenna alignment and orientation",
     "Consider using diversity receiver for better coverage"]
  | "wind_warning" =>
    ["Increase roll PID gains for better wind rejection",
     "Reduce flight altitude in gusty conditions"] ++
    (if physics.wind_speed > 5 then
      ["Consider postponing flight until wind conditions improve"]
     else [])
  | "geofence_breach" =>
    ["Review and expand geofence boundaries if safe",
     "Enable automatic return-to-home at boundary"]
  | "obstacle_detected" =>
    ["Verify obstacle avoidance sensor calibration",
     "Increase minimum safe distance parameter"]
  | "flyaway" =>
    ["Check compass calibration and magnetic interference",
     "Verify failsafe settings are configured correctly",
     "Review flight logs for root cause analysis"]
  | _ => []

/-- `generateDroneRecommendations` of `failures.ts`: collect per-event
strings, remove duplicates, cap at 5 (`.slice(0, 5)` — not 4). -/
def generateDroneRecommendations (events : List DroneSimulationEvent)
    (physics : DronePhysicsConfig) : List String :=
  (jsSetDedup (events.foldl (fun acc e => acc ++ droneRecsFor physics e) [])).take 5

/-! ## Ground telemetry generator (`telemetry.ts`) -/

/-- `HEXAPOD_JOINTS` of `types.ts`. -/
def HEXAPOD_JOINTS : List String :=
  ["leg_1_coxa", "leg_1_femur", "leg_1_tibia",
   "leg_2_coxa", "leg_2_femur", "leg_2_tibia",
   "leg_3_coxa", "leg_3_femur", "leg_3_tibia",
   "leg_4_coxa", "leg_4_femur", "leg_4_tibia",
   "leg_5_coxa", "leg_5_femur", "leg_5_tibia",
   "leg_6_coxa", "leg_6_femur", "leg_6_tibia"]

/-- Terrain parameter row of `getTerrainParams`. -/
structure TerrainParams where
  slipProbability : ℚ
  frictionVariance : ℚ
  impactDamping : ℚ
  sinkage : ℚ
deriving DecidableEq

/-- `getTerrainParams` of `telemetry.ts`, with the `|| params.concrete`
fallback for unknown terrain strings. -/
def getTerrainParams (terrainType : String) : TerrainParams :=
  if terrainType = "sand" then ⟨0.15, 0.2, 0.7, 0.02⟩
  else if terrainType = "concrete" then ⟨0.02, 0.05, 0.95, 0⟩
  else if terrainType = "grass" then ⟨0.08, 0.15, 0.8, 0.01⟩
  else if terrainType = "gravel" then ⟨0.12, 0.18, 0.75, 0.015⟩
  else ⟨0.02, 0.05, 0.95, 0⟩

/-- `pidResponse` of `telemetry.ts`: `(newPosition, clamped newVelocity)`.
The new position integrates the unclamped velocity, as the source does. -/
def pidResponse (current target pid_p pid_d velocity dt : ℚ) : ℚ × ℚ :=
  let error := target - current
  let pTerm := pid_p * error
  let dTerm := -pid_d * velocity
  let acceleration := pTerm + dTerm
  let newVelocity := velocity + acceleration * dt
  let newPosition := current + newVelocity * dt
  (newPosition, clamp newVelocity (-5) 5)

/-- `parseInt` restricted to what the generator feeds it: the longest digit
prefix, `none` for JavaScript's `NaN`. -/
def parseIntPrefix (s : String) : Option ℕ :=
  let ds := s.toList.takeWhile Char.isDigit
  if ds.isEmpty then none
  else some (ds.foldl (fun n c => 10 * n + (c.toNat - 48)) 0)

/-- The three motor fields the control loop reads.  The source reads only
`pid_p`, `pid_d` and `torque_limit` of a joint's `MotorParams` (its inline
default object has exactly these three fields); `pid_i` and `max_velocity`
are never consumed. -/
structure EffMotor where
  pid_p : ℚ
  pid_d : ℚ
  torque_limit : ℚ
deriving DecidableEq

/-- `motors.get(jointId) || { pid_p: 1.0, pid_d: 0.05, torque_limit: 5.0 }`
projected onto the fields the loop reads. -/
def effMotor (motors : List (String × MotorParams)) (jointId : String) :
    EffMotor :=
  match motors.lookup jointId with
  | some m => ⟨m.pid_p, m.pid_d, m.torque_limit⟩
  | none => ⟨1.0, 0.05, 5.0⟩

/-- Per-joint generator state (`jointState` entries). -/
structure JointState where
  position : ℚ
  velocity : ℚ
  torque : ℚ
deriving DecidableEq

/-- Whole-body generator state between frames, plus the next indices `kg`
(gaussian stream) and `ku` (uniform stream). -/
structure GState where
  joints : List JointState
  pitch : ℚ
  roll : ℚ
  yaw : ℚ
  temperature : ℚ
  kg : ℕ
  ku : ℕ

/-- The per-run constants of `generateTelemetryStream`. -/
structure GroundCtx where
  M : MathOracle
  rs : RandStreams
  physics : PhysicsConfig
  terrain : TerrainParams
  eff : String → EffMotor
  dt : ℚ

/-- One joint's update inside the frame loop: gait target, PID step,
terrain noise on position and velocity, torque clamped to the limit. -/
def jointUpdate (ctx : GroundCtx) (gaitPhase : ℚ) (jointId : String)
    (st : JointState) (kg : ℕ) : JointState × ℕ :=
  let eff := ctx.eff jointId
  let parts := jointId.splitOn "_"
  let legNum := match parts.get? 1 with
    | some s => parseIntPrefix s
    | none => none
  let jointType := (parts.get? 2).getD ""
  let phaseOffset := match legNum with
    | some n => if n % 2 = 0 then ctx.M.pi else 0
    | none => 0
  let amplitude : ℚ :=
    if jointType = "coxa" then 0.3
    else if jointType = "femur" then 0.6
    else if jointType = "tibia" then 0.8
    else 0.5
  let target := amplitude * ctx.M.sin (gaitPhase + phaseOffset)
  let pidResult :=
    pidResponse st.position target eff.pid_p eff.pid_d st.velocity ctx.dt
  let noiseScale := 0.01 * (1 + ctx.terrain.frictionVariance)
  let position := pidResult.1 + noiseScale * ctx.rs.g kg
  let velocity := pidResult.2 + noiseScale * 2 * ctx.rs.g (kg + 1)
  let torque :=
    clamp (eff.pid_p * (target - position) + 0.1 * ctx.rs.g (kg + 2))
      (-eff.torque_limit) eff.torque_limit
  (⟨position, velocity, torque⟩, kg + 3)

/-- The `for (const jointId of HEXAPOD_JOINTS)` loop, joints and their
states in parallel. -/
def jointsUpdate (ctx : GroundCtx) (gaitPhase : ℚ) :
    List String → List JointState → ℕ → (List JointState × ℕ)
  | [], _, kg => ([], kg)
  | _ :: _, [], kg => ([], kg)
  | j :: js, s :: ss, kg =>
    let r := jointUpdate ctx gaitPhase j s kg
    let rest := jointsUpdate ctx gaitPhase js ss r.2
    (r.1 :: rest.1, rest.2)

/-- The per-leg contact loop: stance from gait phase, slip draw only while
in contact (`&&` short-circuits), force draw only while in contact (the
conditional expression skips the `gaussianNoise` call otherwise). -/
def contactsLoop (ctx : GroundCtx) (gaitPhase slipChance : ℚ) :
    List ℕ → ℕ → ℕ → (List Contact × ℕ × ℕ)
  | [], kg, ku => ([], kg, ku)
  | leg :: legs, kg, ku =>
    let legPhase :=
      jsFmod (gaitPhase + (if leg % 2 = 0 then ctx.M.pi else 0)) (2 * ctx.M.pi)
    let inContact := decide (legPhase < ctx.M.pi)
    let sd := if inContact then
        (decide (ctx.rs.u ku < slipChance * 0.1), ku + 1)
      else (false, ku)
    let fr := if inContact then (8 + 2 * ctx.rs.g kg, kg + 1) else ((0 : ℚ), kg)
    let rest := contactsLoop ctx gaitPhase slipChance legs fr.2 sd.2
    (⟨"leg_" ++ toString leg, inContact, fr.1, sd.1⟩ :: rest.1, rest.2)

/-- One iteration of the frame loop of `generateTelemetryStream`: joint
updates, IMU smoothing, temperature, power, contacts, then the frame record
with its rounded output fields. -/
def groundStep (ctx : GroundCtx) (st : GState) (i : ℕ) :
    GState × TelemetryFrame :=
  let t := (i : ℚ) * ctx.dt
  let gaitPhase := jsFmod (t * 2 * 2 * ctx.M.pi) (2 * ctx.M.pi)
  let ju := jointsUpdate ctx gaitPhase HEXAPOD_JOINTS st.joints st.kg
  let joints := ju.1
  let kg0 := ju.2
  let jointPositions := HEXAPOD_JOINTS.zip (joints.map (·.position))
  let jointVelocities := HEXAPOD_JOINTS.zip (joints.map (·.velocity))
  let jointTorques := HEXAPOD_JOINTS.zip (joints.map (·.torque))
  let gravityEffect := ctx.physics.gravity / 9.81
  let pitchOscillation := 2 * ctx.M.sin (gaitPhase * 2) * gravityEffect
  let rollOscillation :=
    1.5 * ctx.M.sin (gaitPhase * 2 + ctx.M.pi / 4) * gravityEffect
  let pitch :=
    clamp (st.pitch * 0.95 + pitchOscillation * 0.05 + 0.3 * ctx.rs.g kg0)
      (-30) 30
  let roll :=
    clamp (st.roll * 0.95 + rollOscillation * 0.05 + 0.2 * ctx.rs.g (kg0 + 1))
      (-20) 20
  let yaw := st.yaw + 0.1 * ctx.rs.g (kg0 + 2)
  let temperature :=
    min 55 (st.temperature + 0.001 + |0.01 * ctx.rs.g (kg0 + 3)|)
  let avgTorque :=
    ((joints.map (·.torque)).foldl (fun a b => |a| + |b|) 0) / 18
  let current := 2 + avgTorque * 0.5 + 0.2 * ctx.rs.g (kg0 + 4)
  let kg1 := kg0 + 5
  let slipChance :=
    ctx.terrain.slipProbability * (1 - ctx.physics.friction_coefficient)
  let cl := contactsLoop ctx gaitPhase slipChance [1, 2, 3, 4, 5, 6] kg1 st.ku
  let contacts := cl.1
  let kg2 := cl.2.1
  let ku := cl.2.2
  let frame : TelemetryFrame :=
    { timestamp := jsRound (t * 1000)
      joint_positions := jointPositions
      joint_velocities := jointVelocities
      joint_torques := jointTorques
      imu :=
        { pitch := toFixedQ 2 pitch
          roll := toFixedQ 2 roll
          yaw := toFixedQ 2 yaw
          accel_x := toFixedQ 3 (0.5 * ctx.rs.g kg2)
          accel_y := toFixedQ 3 (0.5 * ctx.rs.g (kg2 + 1))
          accel_z := toFixedQ 3 (ctx.physics.gravity + 0.3 * ctx.rs.g (kg2 + 2)) }
      power :=
        { voltage := toFixedQ 2 (24 - current * 0.1 + 0.05 * ctx.rs.g (kg2 + 3))
          current := toFixedQ 2 current
          temperature := toFixedQ 1 temperature }
      contacts := contacts }
  (⟨joints, pitch, roll, yaw, temperature, kg2 + 4, ku⟩, frame)

/-- The frame loop: `n` frames starting at sample index `i`. -/
def groundAux (ctx : GroundCtx) : GState → ℕ → ℕ → List TelemetryFrame
  | _, _, 0 => []
  | st, i, n + 1 =>
    let r := groundStep ctx st i
    r.2 :: groundAux ctx r.1 (i + 1) n

/-- Initial joint states: `gaussianNoise(0, 0.1)` position per joint, in
`HEXAPOD_JOINTS` order (gaussian indices 0–17). -/
def initJoints (rs : RandStreams) : List JointState :=
  (List.range 18).map (fun k => ⟨0.1 * rs.g k, 0, 0⟩)

/-- `generateTelemetryStream` of `telemetry.ts`:
`floor(duration * sampleRate)` frames generated from the initial state. -/
def generateTelemetryStream (durationSeconds : ℚ) (physics : PhysicsConfig)
    (motors : List (String × MotorParams)) (sampleRateHz : ℚ)
    (M : MathOracle) (rs : RandStreams) : List TelemetryFrame :=
  let totalSamples := (⌊durationSeconds * sampleRateHz⌋).toNat
  let dt := 1 / sampleRateHz
  let ctx : GroundCtx :=
    { M := M, rs := rs, physics := physics,
      terrain := getTerrainParams physics.terrain_type,
      eff := effMotor motors, dt := dt }
  groundAux ctx ⟨initJoints rs, 0, 0, 0, 35, 18, 0⟩ 0 totalSamples

/-! ## Metrics analyzers (`telemetry.ts`) -/

/-- `SimulationMetrics` of `types.ts` (scores are rounded integers, kept as
rationals). -/
structure SimulationMetrics where
  stability_score : ℚ
  efficiency_score : ℚ
  gait_symmetry : ℚ
  max_pitch_deviation : ℚ
  max_roll_deviation : ℚ
  slip_events : ℕ
  total_energy_consumed : ℚ
  avg_joint_temperature : ℚ
deriving DecidableEq

/-- Accumulator of the single pass of `analyzeTelemetry`. -/
structure GAcc where
  maxPitch : ℚ
  maxRoll : ℚ
  slipEvents : ℕ
  totalEnergy : ℚ
  tempSum : ℚ
  leftLegPhaseSum : ℚ
  rightLegPhaseSum : ℚ

/-- The per-contact accumulation of `analyzeTelemetry`: count slips, add
stance time to the odd (left) or even/unparsable (right) side —
`parseInt` yielding `NaN` makes `legNum % 2 === 1` false. -/
def gAccContact (acc : GAcc) (c : Contact) : GAcc :=
  let acc :=
    if c.slip_detected then { acc with slipEvents := acc.slipEvents + 1 }
    else acc
  let legNum := match (c.leg_id.splitOn "_").get? 1 with
    | some s => parseIntPrefix s
    | none => none
  match legNum with
  | some n =>
    if n % 2 = 1 then
      { acc with leftLegPhaseSum :=
          acc.leftLegPhaseSum + (if c.in_contact then 1 else 0) }
    else
      { acc with rightLegPhaseSum :=
          acc.rightLegPhaseSum + (if c.in_contact then 1 else 0) }
  | none =>
    { acc with rightLegPhaseSum :=
        acc.rightLegPhaseSum + (if c.in_contact then 1 else 0) }

/-- The per-frame accumulation of `analyzeTelemetry`. -/
def gAccFrame (acc : GAcc) (frame : TelemetryFrame) : GAcc :=
  let acc := { acc with
    maxPitch := max acc.maxPitch |frame.imu.pitch|,
    maxRoll := max acc.maxRoll |frame.imu.roll| }
  let acc := frame.contacts.foldl gAccContact acc
  { acc with
    totalEnergy :=
      acc.totalEnergy + frame.power.voltage * frame.power.current * 0.01,
    tempSum := acc.tempSum + frame.power.temperature }

/-- `analyzeTelemetry` of `telemetry.ts`: all-zero metrics on an empty
frame list, otherwise the single-pass scores. -/
def analyzeTelemetry (frames : List TelemetryFrame) : SimulationMetrics :=
  if frames.length = 0 then
    ⟨0, 0, 0, 0, 0, 0, 0, 0⟩
  else
    let a := frames.foldl gAccFrame ⟨0, 0, 0, 0, 0, 0, 0⟩
    let n : ℚ := (frames.length : ℚ)
    let stabilityPenalty :=
      (a.maxPitch / 30) * 30 + (a.maxRoll / 20) * 20 +
      ((a.slipEvents : ℚ) / n) * 50
    let stability_score : ℚ := max 0 (jsRound (100 - stabilityPenalty) : ℚ)
    let efficiencyRaw := 100 - (a.totalEnergy / n) * 2
    let efficiency_score : ℚ :=
      max 0 (min 100 (jsRound efficiencyRaw : ℚ))
    let symmetryDiff := |a.leftLegPhaseSum - a.rightLegPhaseSum| / n
    let gait_symmetry := toFixedQ 2 (max 0 (1 - symmetryDiff * 0.5))
    { stability_score := stability_score
      efficiency_score := efficiency_score
      gait_symmetry := gait_symmetry
      max_pitch_deviation := toFixedQ 1 a.maxPitch
      max_roll_deviation := toFixedQ 1 a.maxRoll
      slip_events := a.slipEvents
      total_energy_consumed := toFixedQ 2 a.totalEnergy
      avg_joint_temperature := toFixedQ 1 (a.tempSum / n) }

/-- `DroneSimulationMetrics` of `types.ts`. -/
structure DroneSimulationMetrics where
  hover_accuracy : ℚ
  altitude_stability : ℚ
  battery_efficiency : ℚ
  wind_compensation_events : ℕ
  max_altitude_deviation : ℚ
  avg_rotor_rpm : ℚ
  gps_quality_avg : ℚ
deriving DecidableEq

/-- Accumulator of the single pass of `analyzeDroneTelemetry`. -/
structure DAcc where
  withinThreshold : ℕ
  maxAltDeviation : ℚ
  totalRPM : ℚ
  totalGPSQuality : ℚ
  windEvents : ℕ
  prevRoll : ℚ
  prevPitch : ℚ

/-- The per-frame accumulation of `analyzeDroneTelemetry`. -/
def dAccFrame (acc : DAcc) (frame : DroneTelemetryFrame) : DAcc :=
  let altDeviation := |frame.position.alt - 10|
  let acc := { acc with
    maxAltDeviation := max acc.maxAltDeviation altDeviation }
  let acc :=
    if altDeviation < 0.5 then
      { acc with withinThreshold := acc.withinThreshold + 1 }
    else acc
  let acc := { acc with
    totalRPM := acc.totalRPM +
      ((frame.rotor_speeds.map (fun r => (r : ℚ))).foldl (· + ·) 0) / 4,
    totalGPSQuality := acc.totalGPSQuality + (frame.gps_quality : ℚ) }
  let rollChange := |frame.attitude.roll - acc.prevRoll|
  let pitchChange := |frame.attitude.pitch - acc.prevPitch|
  let acc :=
    if rollChange > 3 ∨ pitchChange > 3 then
      { acc with windEvents := acc.windEvents + 1 }
    else acc
  { acc with prevRoll := frame.attitude.roll, prevPitch := frame.attitude.pitch }

/-- `analyzeDroneTelemetry` of `telemetry.ts`: all-zero metrics on an empty
frame list, otherwise the single-pass scores. -/
def analyzeDroneTelemetry (frames : List DroneTelemetryFrame) :
    DroneSimulationMetrics :=
  if frames.length = 0 then
    ⟨0, 0, 0, 0, 0, 0, 0⟩
  else
    let a := frames.foldl dAccFrame ⟨0, 0, 0, 0, 0, 0, 0⟩
    let n : ℚ := (frames.length : ℚ)
    let hoverAccuracy : ℚ := (jsRound (((a.withinThreshold : ℚ) / n) * 100) : ℚ)
    let altitudeStability : ℚ :=
      (jsRound (max 0 (100 - a.maxAltDeviation * 10)) : ℚ)
    let startBattery :=
      ((frames.get? 0).map (fun f => f.battery.remaining)).getD 0
    let endBattery :=
      ((frames.get? (frames.length - 1)).map
        (fun f => f.battery.remaining)).getD 0
    let actualDrain := startBattery - endBattery
    let theoreticalDrain := (n / 50) * 0.1
    let batteryEfficiency : ℚ :=
      (jsRound (min 100 ((theoreticalDrain / max actualDrain 0.1) * 100)) : ℚ)
    { hover_accuracy := hoverAccuracy
      altitude_stability := altitudeStability
      battery_efficiency := batteryEfficiency
      wind_compensation_events := min a.windEvents 10
      max_altitude_deviation := toFixedQ 2 a.maxAltDeviation
      avg_rotor_rpm := (jsRound (a.totalRPM / n) : ℚ)
      gps_quality_avg := (jsRound (a.totalGPSQuality / n) : ℚ) }

/-- `DroneFlightPath` of `types.ts`. -/
structure DroneFlightPath where
  waypoints_completed : ℕ
  total_distance : ℚ
  max_speed : ℚ
  avg_speed : ℚ
deriving DecidableEq

/-- The pairwise accumulation of `analyzeDroneFlightPath` over consecutive
frames (distance via the flat-earth approximation with `Math.cos`, speed
from the velocity vector; both through the uninterpreted square root). -/
def fpAccPair (M : MathOracle) (acc : ℚ × ℚ × ℚ)
    (pair : DroneTelemetryFrame × DroneTelemetryFrame) : ℚ × ℚ × ℚ :=
  let prev := pair.1
  let curr := pair.2
  let dx := (curr.position.lat - prev.position.lat) * 111000
  let dy := (curr.position.lon - prev.position.lon) * 111000 *
    M.cos (curr.position.lat * M.pi / 180)
  let dz := curr.position.alt - prev.position.alt
  let dist := M.sqrt (dx * dx + dy * dy + dz * dz)
  let speed := M.sqrt (curr.velocity.vx * curr.velocity.vx +
    curr.velocity.vy * curr.velocity.vy + curr.velocity.vz * curr.velocity.vz)
  (acc.1 + dist, max acc.2.1 speed, acc.2.2 + speed)

/-- `analyzeDroneFlightPath` of `telemetry.ts`: an all-zero record for
fewer than two frames, otherwise pairwise distance/speed accumulation and
threshold-based waypoint counting. -/
def analyzeDroneFlightPath (M : MathOracle)
    (frames : List DroneTelemetryFrame) : DroneFlightPath :=
  if frames.length < 2 then
    ⟨0, 0, 0, 0⟩
  else
    let a := (frames.zip frames.tail).foldl (fpAccPair M) (0, 0, 0)
    let totalDistance := a.1
    let maxSpeed := a.2.1
    let totalSpeed := a.2.2
    let waypointsCompleted : ℕ :=
      (if totalDistance > 10 then 1 else 0) +
      (if totalDistance > 30 then 1 else 0) +
      (if totalDistance > 60 then 1 else 0) +
      (if totalDistance > 100 then 1 else 0)
    { waypoints_completed := waypointsCompleted
      total_distance := toFixedQ 1 totalDistance
      max_speed := toFixedQ 1 maxSpeed
      avg_speed := toFixedQ 1 (totalSpeed / ((frames.length : ℚ) - 1)) }

/-! ## Drone telemetry generator (`telemetry.ts`) -/

/-- Airspace parameter row of `getAirspaceParams`. -/
structure AirspaceParams where
  turbulenceIntensity : ℚ
  gustProbability : ℚ
  positionVariance : ℚ
deriving DecidableEq

/-- `getAirspaceParams` of `telemetry.ts`, with the `|| params.calm`
fallback. -/
def getAirspaceParams (condition : String) : AirspaceParams :=
  if condition = "calm" then ⟨0.1, 0.02, 0.05⟩
  else if condition = "light_wind" then ⟨0.25, 0.08, 0.15⟩
  else if condition = "gusty" then ⟨0.5, 0.2, 0.35⟩
  else if condition = "turbulent" then ⟨0.8, 0.4, 0.6⟩
  else ⟨0.1, 0.02, 0.05⟩

/-- The four-phase flight profile. -/
inductive FlightPhase where
  | takeoff
  | hover
  | waypoint
  | land
deriving DecidableEq

/-- The phase at elapsed time `t` of a flight of `d` seconds
(takeoff 15%, hover 25%, waypoint 40%, landing 20%). -/
def flightPhaseAt (d t : ℚ) : FlightPhase :=
  if t < d * 0.15 then .takeoff
  else if t < d * 0.15 + d * 0.25 then .hover
  else if t < d * 0.15 + d * 0.25 + d * 0.4 then .waypoint
  else .land

/-- `startLat` (San Francisco). -/
def startLat : ℚ := 37.7749

/-- `startLon`. -/
def startLon : ℚ := -122.4194

/-- The fixed relative waypoint list of `generateDroneTelemetryStream`. -/
def droneWaypoints : List (ℚ × ℚ) :=
  [(startLat + 0.0001, startLon + 0.0001),
   (startLat + 0.0002, startLon),
   (startLat + 0.0001, startLon - 0.0001),
   (startLat, startLon)]

/-- Mutable state of the drone flight loop, plus the next stream indices. -/
structure DState where
  lat : ℚ
  lon : ℚ
  alt : ℚ
  vx : ℚ
  vy : ℚ
  vz : ℚ
  pitch : ℚ
  roll : ℚ
  yaw : ℚ
  batteryRemaining : ℚ
  batteryVoltage : ℚ
  rotorSpeeds : List ℚ
  currentWaypoint : ℕ
  kg : ℕ
  ku : ℕ

/-- The per-run constants of `generateDroneTelemetryStream`. -/
structure DroneCtx where
  M : MathOracle
  rs : RandStreams
  physics : DronePhysicsConfig
  air : AirspaceParams
  d : ℚ
  dt : ℚ

/-- What the phase-specific `switch` block of the drone loop updates:
vertical velocity and altitude, the rotor speeds, and (in the waypoint
phase) the horizontal state. -/
structure PhaseOut where
  vz : ℚ
  alt : ℚ
  lat : ℚ
  lon : ℚ
  vx : ℚ
  vy : ℚ
  rotors : List ℚ
  currentWaypoint : ℕ
  kg : ℕ

/-- The `switch (phase)` block of the drone loop.  Rotor speeds are clamped
to `[1000, 8000]` in the takeoff and waypoint arms; the hover arm sets
`hoverRPM + gaussianNoise(0, 100)` without clamping, and the landing arm
lowers the clamp floor to `0` once altitude is at most `0.5`. -/
def dronePhaseUpdate (ctx : DroneCtx) (st : DState) (t : ℚ) :
    FlightPhase → PhaseOut
  | .takeoff =>
    let takeoffProgress := t / (ctx.d * 0.15)
    let targetAlt := 10 * ctx.M.sin (takeoffProgress * ctx.M.pi / 2)
    let vz := (targetAlt - st.alt) * 2
    let alt := st.alt + vz * ctx.dt
    let rotors := (List.range 4).map (fun r =>
      clamp (1000 + (4500 - 1000) * takeoffProgress + 50 * ctx.rs.g (st.kg + r))
        1000 8000)
    ⟨vz, alt, st.lat, st.lon, st.vx, st.vy, rotors, st.currentWaypoint,
     st.kg + 4⟩
  | .hover =>
    let vz := (10 - st.alt) * 0.5 + 0.1 * ctx.rs.g st.kg
    let alt := clamp (st.alt + vz * ctx.dt) 0 50
    let rotors := (List.range 4).map (fun r =>
      4500 + 100 * ctx.rs.g (st.kg + 1 + r))
    ⟨vz, alt, st.lat, st.lon, st.vx, st.vy, rotors, st.currentWaypoint,
     st.kg + 5⟩
  | .waypoint =>
    let wp := (droneWaypoints.get? st.currentWaypoint).getD (startLat, startLon)
    let latError := wp.1 - st.lat
    let lonError := wp.2 - st.lon
    let dist := ctx.M.sqrt (latError * latError + lonError * lonError)
    let currentWaypoint :=
      if dist < 0.00002 ∧ st.currentWaypoint < droneWaypoints.length - 1 then
        st.currentWaypoint + 1
      else st.currentWaypoint
    let vx := latError * 50000
    let vy := lonError * 50000
    let lat := st.lat + vx * ctx.dt * 0.00001
    let lon := st.lon + vy * ctx.dt * 0.00001
    let vz := (10 - st.alt) * 0.3
    let alt := clamp (st.alt + vz * ctx.dt) 0 50
    let movementBoost := |vx| + |vy|
    let rotors := (List.range 4).map (fun r =>
      clamp (4500 + movementBoost * 10 + 150 * ctx.rs.g (st.kg + r)) 1000 8000)
    ⟨vz, alt, lat, lon, vx, vy, rotors, currentWaypoint, st.kg + 4⟩
  | .land =>
    let landProgress := (t - (ctx.d - ctx.d * 0.2)) / (ctx.d * 0.2)
    let descentRate := -2 * (1 - landProgress * 0.5)
    let vz := descentRate
    let alt := clamp (st.alt + vz * ctx.dt) 0 50
    let rotors := (List.range 4).map (fun r =>
      clamp (4500 * (1 - landProgress * 0.6) + 50 * ctx.rs.g (st.kg + r))
        (if alt > 0.5 then 1000 else 0) 8000)
    ⟨vz, alt, st.lat, st.lon, st.vx, st.vy, rotors, st.currentWaypoint,
     st.kg + 4⟩

/-- One iteration of the drone flight loop: phase update, wind drift, gust
and stabilization of attitude, battery drain, GPS/signal noise, then the
frame record with its rounded output fields. -/
def droneStep (ctx : DroneCtx) (st : DState) (i : ℕ) :
    DState × DroneTelemetryFrame :=
  let t := (i : ℚ) * ctx.dt
  let phase := flightPhaseAt ctx.d t
  let p := dronePhaseUpdate ctx st t phase
  let windEffect := ctx.physics.wind_speed * ctx.air.turbulenceIntensity
  let windAngleRad := ctx.physics.wind_direction * ctx.M.pi / 180
  let lat := p.lat + ctx.M.cos windAngleRad * windEffect * 0.000001 * ctx.dt
  let lon := p.lon + ctx.M.sin windAngleRad * windEffect * 0.000001 * ctx.dt
  let gustActive := decide (ctx.rs.u st.ku < ctx.air.gustProbability * ctx.dt)
  let roll0 := if gustActive then
      st.roll + 5 * ctx.rs.g p.kg * ctx.air.turbulenceIntensity
    else st.roll
  let pitch0 := if gustActive then
      st.pitch + 5 * ctx.rs.g (p.kg + 1) * ctx.air.turbulenceIntensity
    else st.pitch
  let kg0 := if gustActive then p.kg + 2 else p.kg
  let pitch1 := pitch0 * 0.95 + 0.5 * ctx.rs.g kg0
  let roll1 := roll0 * 0.95 + 0.5 * ctx.rs.g (kg0 + 1)
  let yaw := st.yaw + 0.2 * ctx.rs.g (kg0 + 2)
  let pitch := clamp pitch1 (-30) 30
  let roll := clamp roll1 (-30) 30
  let powerDrain := 0.001 + |p.vz| * 0.002 + (|p.vx| + |p.vy|) * 0.0001
  let batteryRemaining := clamp (st.batteryRemaining - powerDrain) 0 100
  let batteryVoltage := 14.0 + (batteryRemaining / 100) * 2.8
  let avgRPM := (p.rotors.foldl (· + ·) 0) / 4
  let current := 5 + (avgRPM / 4500) * 15
  let gpsQuality0 := 95 + 3 * ctx.rs.g (kg0 + 3)
  let gpsQuality1 := if p.alt < 2 then gpsQuality0 - 10 else gpsQuality0
  let gpsQuality2 :=
    if ctx.physics.airspace_condition = "turbulent" then gpsQuality1 - 5
    else gpsQuality1
  let gpsQuality := clamp gpsQuality2 0 100
  let signalStrength := -45 + 3 * ctx.rs.g (kg0 + 4)
  let frame : DroneTelemetryFrame :=
    { timestamp := jsRound (t * 1000)
      position :=
        { lat := toFixedQ 6 lat, lon := toFixedQ 6 lon, alt := toFixedQ 2 p.alt }
      velocity :=
        { vx := toFixedQ 2 p.vx, vy := toFixedQ 2 p.vy, vz := toFixedQ 2 p.vz }
      attitude :=
        { pitch := toFixedQ 1 pitch, roll := toFixedQ 1 roll,
          yaw := toFixedQ 1 yaw }
      rotor_speeds := p.rotors.map jsRound
      battery :=
        { voltage := toFixedQ 2 batteryVoltage, current := toFixedQ 1 current,
          remaining := toFixedQ 1 batteryRemaining }
      gps_quality := jsRound gpsQuality
      signal_strength := jsRound signalStrength }
  (⟨lat, lon, p.alt, p.vx, p.vy, p.vz, pitch, roll, yaw, batteryRemaining,
    batteryVoltage, p.rotors, p.currentWaypoint, kg0 + 5, st.ku + 1⟩, frame)

/-- The drone frame loop: `n` frames starting at sample index `i`. -/
def droneAux (ctx : DroneCtx) : DState → ℕ → ℕ → List DroneTelemetryFrame
  | _, _, 0 => []
  | st, i, n + 1 =>
    let r := droneStep ctx st i
    r.2 :: droneAux ctx r.1 (i + 1) n

/-- `generateDroneTelemetryStream` of `telemetry.ts`. -/
def generateDroneTelemetryStream (durationSeconds : ℚ)
    (physics : DronePhysicsConfig) (sampleRateHz : ℚ)
    (M : MathOracle) (rs : RandStreams) : List DroneTelemetryFrame :=
  let totalSamples := (⌊durationSeconds * sampleRateHz⌋).toNat
  let dt := 1 / sampleRateHz
  let ctx : DroneCtx :=
    { M := M, rs := rs, physics := physics,
      air := getAirspaceParams physics.airspace_condition,
      d := durationSeconds, dt := dt }
  droneAux ctx
    ⟨startLat, startLon, 0, 0, 0, 0, 0, 0, 0, 100, 16.8, [0, 0, 0, 0], 0, 0, 0⟩
    0 totalSamples

/-! ## Session state store (`state.ts`) and orchestrator effects (`index.ts`)

JavaScript object and `Map` identity is made explicit with two small heaps:
`updatePhysics` allocates a fresh physics object and repoints the session at
it (spread into a new object literal), while `updateMotor` mutates the
session's motors `Map` in place (`session.motors.set(...)`).  A stored run
record keeps references (`physicsRef`, `motorsRef`) to the objects live at
run creation, exactly as `runSimulation` stores `session.physics` and
`session.motors` themselves into the run.  Of the run record only these
configuration-snapshot fields are modelled; the telemetry/metrics/events
payloads play no part in the store's aliasing behaviour. -/

/-- A runtime motor-parameter object: each numeric field may hold
`undefined` (`none`), which the buggy partial update can write. -/
structure MotorObj where
  joint_id : String
  torque_limit : Option ℚ
  pid_p : Option ℚ
  pid_i : Option ℚ
  pid_d : Option ℚ
  max_velocity : Option ℚ
deriving DecidableEq

/-- `DEFAULT_MOTOR_PARAMS` of `types.ts`, keyed to a joint. -/
def defaultMotorObj (jointId : String) : MotorObj :=
  ⟨jointId, some 5.0, some 1.0, some 0.1, some 0.05, some 5.0⟩

/-- A partial-update object for `updateMotor`: the outer `Option` is key
presence (spread copies a present key even when its value is `undefined`),
the inner `Option ℚ` the possibly-`undefined` value. -/
structure MotorPatch where
  torque_limit : Option (Option ℚ)
  pid_p : Option (Option ℚ)
  pid_i : Option (Option ℚ)
  pid_d : Option (Option ℚ)
  max_velocity : Option (Option ℚ)

/-- `{ ...existing, ...params, joint_id: jointId }`: a present key of
`params` overwrites the existing field (even with `undefined`); an absent
key leaves it. -/
def applyMotorPatch (existing : MotorObj) (params : MotorPatch)
    (jointId : String) : MotorObj :=
  { joint_id := jointId
    torque_limit := params.torque_limit.getD existing.torque_limit
    pid_p := params.pid_p.getD existing.pid_p
    pid_i := params.pid_i.getD existing.pid_i
    pid_d := params.pid_d.getD existing.pid_d
    max_velocity := params.max_velocity.getD existing.max_velocity }

/-- A partial-update object for `updatePhysics` (tool arguments: absent
keys are truly absent). -/
structure PhysicsPatch where
  gravity : Option ℚ
  friction_coefficient : Option ℚ
  terrain_type : Option String
  terrain_roughness : Option ℚ

/-- `{ ...session.physics, ...physics }`. -/
def applyPhysicsPatch (existing : PhysicsConfig) (p : PhysicsPatch) :
    PhysicsConfig :=
  { gravity := p.gravity.getD existing.gravity
    friction_coefficient :=
      p.friction_coefficient.getD existing.friction_coefficient
    terrain_type := p.terrain_type.getD existing.terrain_type
    terrain_roughness := p.terrain_roughness.getD existing.terrain_roughness }

/-- `Map.set`: replace the key in place, else append (insertion order). -/
def mapSet (k : String) (v : MotorObj) :
    List (String × MotorObj) → List (String × MotorObj)
  | [] => [(k, v)]
  | (k', v') :: rest =>
    if k' = k then (k, v) :: rest else (k', v') :: mapSet k v rest

/-- A stored `SimulationRun`, reduced to the references `runSimulation`
stores: `physics_config: session.physics` and
`motor_configs: session.motors`. -/
structure StoredRun where
  physicsRef : ℕ
  motorsRef : ℕ
deriving DecidableEq

/-- One session's state with explicit heaps for object identity. -/
structure StoreState where
  physicsHeap : List PhysicsConfig
  motorHeap : List (List (String × MotorObj))
  sessPhysics : ℕ
  sessMotors : ℕ
  runs : List StoredRun

/-- A fresh session (`createDefaultSession`): default physics and the 18
hexapod joints at default motor parameters. -/
def initStoreState : StoreState :=
  { physicsHeap := [DEFAULT_PHYSICS]
    motorHeap := [HEXAPOD_JOINTS.map (fun j => (j, defaultMotorObj j))]
    sessPhysics := 0
    sessMotors := 0
    runs := [] }

/-- `updatePhysics` of `state.ts`:
`session.physics = { ...session.physics, ...physics }` allocates a fresh
object and repoints the session; the old object (still referenced by stored
runs) is untouched. -/
def updatePhysics (st : StoreState) (p : PhysicsPatch) : StoreState :=
  let old := st.physicsHeap.getD st.sessPhysics DEFAULT_PHYSICS
  { st with
    physicsHeap := st.physicsHeap ++ [applyPhysicsPatch old p]
    sessPhysics := st.physicsHeap.length }

/-- `updateMotor` of `state.ts`: read (or default) the joint's entry, merge,
and `session.motors.set(...)` — an in-place mutation of the `Map` every
holder of the reference observes. -/
def updateMotor (st : StoreState) (jointId : String) (params : MotorPatch) :
    StoreState :=
  let m := st.motorHeap.getD st.sessMotors []
  let existing := (m.lookup jointId).getD (defaultMotorObj jointId)
  let updated := applyMotorPatch existing params jointId
  { st with motorHeap := st.motorHeap.set st.sessMotors (mapSet jointId updated m) }

/-- `updateMotorParams` of `index.ts`: builds the update object with all
four keys present (`torque_limit: args.torque_limit, ...`), so an argument
the caller omitted arrives as a present key holding `undefined`;
`max_velocity` is not a key of the object at all. -/
def updateMotorParams (st : StoreState) (jointId : String)
    (torque_limit pid_p pid_i pid_d : Option ℚ) : StoreState :=
  updateMotor st jointId
    { torque_limit := some torque_limit
      pid_p := some pid_p
      pid_i := some pid_i
      pid_d := some pid_d
      max_velocity := none }

/-- `addRun` of `state.ts`: append, keep the last 10. -/
def addRun (st : StoreState) (run : StoredRun) : StoreState :=
  let runs := st.runs ++ [run]
  { st with runs := if runs.length > 10 then runs.drop (runs.length - 10) else runs }

/-- The store effect of `runSimulation` of `index.ts`: the run record is
created with `physics_config: session.physics` and
`motor_configs: session.motors` — the session's own references, not
copies — and stored. -/
def runSimulation (st : StoreState) : StoreState :=
  addRun st ⟨st.sessPhysics, st.sessMotors⟩

/-- Dereference a stored run's `physics_config`. -/
def runPhysicsConfig (st : StoreState) (run : StoredRun) : PhysicsConfig :=
  st.physicsHeap.getD run.physicsRef DEFAULT_PHYSICS

/-- Dereference a stored run's `motor_configs`. -/
def runMotorConfigs (st : StoreState) (run : StoredRun) :
    List (String × MotorObj) :=
  st.motorHeap.getD run.motorsRef []

/-- The session's live motors map. -/
def sessionMotors (st : StoreState) : List (String × MotorObj) :=
  st.motorHeap.getD st.sessMotors []

/-! ## Concrete inputs used by evaluations and counterexamples -/

/-- `DEFAULT_DRONE_PHYSICS` of `state.ts`. -/
def DEFAULT_DRONE_PHYSICS : DronePhysicsConfig :=
  { air_density := 1.225, wind_speed := 2.0, wind_direction := 180,
    airspace_condition := "light_wind" }

/-- Streams whose uniform draws are all 0.99 (suppresses every Bernoulli
injection gate) and whose gaussian draws are all 0. -/
def streams99 : RandStreams := ⟨fun _ => 0, fun _ => 99 / 100⟩

/-- A single quiet ground frame (no slip, level, cool). -/
def c2Frame : TelemetryFrame :=
  ⟨0, [], [], [], ⟨0, 0, 0, 0, 0, 0⟩, ⟨24, 2, 35⟩, []⟩

/-- A single quiet drone frame (good GPS, full battery, matched rotors). -/
def c2DroneFrame : DroneTelemetryFrame :=
  ⟨0, ⟨startLat, startLon, 10⟩, ⟨0, 0, 0⟩, ⟨0, 0, 0⟩,
   [4500, 4500, 4500, 4500], ⟨16.8, 5, 100⟩, 95, -45⟩

/-- A ground frame with a given timestamp, pitch and temperature, otherwise
quiet. -/
def c4Fr (ts : ℤ) (pitch temp : ℚ) : TelemetryFrame :=
  ⟨ts, [], [], [], ⟨pitch, 0, 0, 0, 0, 0⟩, ⟨24, 2, temp⟩, []⟩

/-- Ten frames whose only anomaly is pitch 35° at index 5 (a sampled
index: the stride is 1). -/
def c4Frames : List TelemetryFrame :=
  [c4Fr 0 0 35, c4Fr 100 0 35, c4Fr 200 0 35, c4Fr 300 0 35, c4Fr 400 0 35,
   c4Fr 500 35 35, c4Fr 600 0 35, c4Fr 700 0 35, c4Fr 800 0 35, c4Fr 900 0 35]

/-- Ten frames where samples 1–5 each yield two warning events (pitch 22°
and temperature 51 °C) — ten events before the sampled frame at index 9
reaches pitch 35°. -/
def c4xFrames : List TelemetryFrame :=
  [c4Fr 0 0 35, c4Fr 100 22 51, c4Fr 200 22 51, c4Fr 300 22 51,
   c4Fr 400 22 51, c4Fr 500 22 51, c4Fr 600 0 35, c4Fr 700 0 35,
   c4Fr 800 0 35, c4Fr 900 35 35]

/-- Two drone events whose recommendation texts are five distinct strings
when the wind is strong. -/
def c6Events : List DroneSimulationEvent :=
  [⟨0, "wind_warning", .warning, []⟩, ⟨0, "motor_failure", .warning, []⟩]

/-- Drone physics with wind above 5 m/s (third wind recommendation
applies). -/
def c6Physics : DronePhysicsConfig :=
  { air_density := 1.225, wind_speed := 10, wind_direction := 180,
    airspace_condition := "light_wind" }

/-- Streams whose 10th gaussian draw is 40 (the hover-phase rotor-0 noise
of the run below) and whose uniform draws keep gusts inactive. -/
def c7Gauss : RandStreams :=
  ⟨fun n => if n = 10 then 40 else 0, fun _ => 9 / 10⟩

/-- A placeholder drone frame for `Option.getD`. -/
def dummyDroneFrame : DroneTelemetryFrame :=
  ⟨0, ⟨0, 0, 0⟩, ⟨0, 0, 0⟩, ⟨0, 0, 0⟩, [], ⟨0, 0, 0⟩, 0, 0⟩

/-- The first frame of a 3-sample flight (takeoff phase) under the zero
oracle and zero streams. -/
def c7WitnessFrame : DroneTelemetryFrame :=
  ((generateDroneTelemetryStream 10 DEFAULT_DRONE_PHYSICS (3 / 10) oracle0
    streams0).get? 0).getD dummyDroneFrame

/-- A one-joint motor map with `pid_i = 0.1`. -/
def c8m1 : List (String × MotorParams) :=
  [("leg_1_coxa", ⟨"leg_1_coxa", 5, 1, 0.1, 0.05, 5⟩)]

/-- The same map with `pid_i = 7`. -/
def c8m2 : List (String × MotorParams) :=
  [("leg_1_coxa", ⟨"leg_1_coxa", 5, 1, 7, 0.05, 5⟩)]

/-- Two ground motor maps agree except possibly in their `pid_i` gains:
pointwise, the keys and every `MotorParams` field other than `pid_i`
coincide. -/
def MotorsAgreeExceptI (m1 m2 : List (String × MotorParams)) : Prop :=
  List.Forall₂ (fun a b => a.1 = b.1 ∧ a.2.joint_id = b.2.joint_id ∧
    a.2.torque_limit = b.2.torque_limit ∧ a.2.pid_p = b.2.pid_p ∧
    a.2.pid_d = b.2.pid_d ∧ a.2.max_velocity = b.2.max_velocity) m1 m2

/-! ## Helper lemmas -/

theorem jsSetDedupAux_not_mem {α : Type} [DecidableEq α] (l : List α) :
    ∀ (seen : List α) (x : α), x ∈ jsSetDedupAux seen l → x ∉ seen := by
  induction l with
  | nil => intro seen x h; simp [jsSetDedupAux] at h
  | cons a l ih =>
    intro seen x h
    by_cases ha : a ∈ seen
    · simp only [jsSetDedupAux] at h
      rw [if_pos ha] at h
      exact ih seen x h
    · simp only [jsSetDedupAux] at h
      rw [if_neg ha] at h
      rcases List.mem_cons.mp h with rfl | h'
      · exact ha
      · intro hx
        exact (ih (a :: seen) x h') (List.mem_cons_of_mem a hx)

theorem jsSetDedupAux_nodup {α : Type} [DecidableEq α] (l : List α) :
    ∀ seen : List α, (jsSetDedupAux seen l).Nodup := by
  induction l with
  | nil => intro seen; simp [jsSetDedupAux]
  | cons a l ih =>
    intro seen
    by_cases ha : a ∈ seen
    · simp only [jsSetDedupAux]
      rw [if_pos ha]
      exact ih seen
    · simp only [jsSetDedupAux]
      rw [if_neg ha]
      refine List.nodup_cons.mpr ⟨?_, ih (a :: seen)⟩
      intro hmem
      exact (jsSetDedupAux_not_mem l (a :: seen) a hmem)
        (List.mem_cons_self a seen)

theorem foldl_add_zeros : ∀ l : List ℚ, (∀ x ∈ l, x = 0) →
    ∀ init : ℚ, l.foldl (· + ·) init = init := by
  intro l
  induction l with
  | nil => intro _ init; rfl
  | cons a l ih =>
    intro h init
    simp only [List.foldl_cons]
    rw [h a (List.mem_cons_self a l), add_zero]
    exact ih (fun x hx => h x (List.mem_cons_of_mem a hx)) init

theorem weightedSelect_skip_zeros {α : Type} :
    ∀ pre : List (α × ℚ), (∀ p ∈ pre, p.2 = 0) →
    ∀ (rest : List (α × ℚ)) (r : ℚ), 0 < r →
      weightedSelect (pre ++ rest) r = weightedSelect rest r := by
  intro pre
  induction pre with
  | nil => intros; rfl
  | cons p pre ih =>
    intro h rest r hr
    obtain ⟨a, w⟩ := p
    have hw : w = 0 := h (a, w) (List.mem_cons_self _ _)
    simp only [List.cons_append, weightedSelect]
    rw [hw, sub_zero, if_neg (not_le.mpr hr)]
    exact ih (fun q hq => h q (List.mem_cons_of_mem _ hq)) rest r hr

theorem groundEventLoop_stride_zero (frames : List TelemetryFrame)
    (physics : PhysicsConfig) (rs : RandStreams) (h : 0 < frames.length) :
    ∀ (fuel : ℕ) (events : List SimulationEvent) (ku : ℕ),
      groundEventLoop frames physics rs 0 fuel 0 events ku = none := by
  intro fuel
  induction fuel with
  | zero => intro events ku; rfl
  | succ n ih =>
    intro events ku
    simp only [groundEventLoop]
    rw [if_pos h]
    exact ih _ _

theorem droneEventLoop_stride_zero (frames : List DroneTelemetryFrame)
    (physics : DronePhysicsConfig) (rs : RandStreams) (h : 0 < frames.length) :
    ∀ (fuel : ℕ) (events : List DroneSimulationEvent) (ku : ℕ),
      droneEventLoop frames physics rs 0 fuel 0 events ku = none := by
  intro fuel
  induction fuel with
  | zero => intro events ku; rfl
  | succ n ih =>
    intro events ku
    simp only [droneEventLoop]
    rw [if_pos h]
    exact ih _ _

/-! ## Claim theorems -/

/-- C10: `analyzeTelemetry` and `analyzeDroneTelemetry` return all-zero
metrics on the empty frame list, and `analyzeDroneFlightPath` returns an
all-zero record on fewer than two frames, none of them dividing by zero or
failing. -/
theorem c10_theorem :
    analyzeTelemetry [] = ⟨0, 0, 0, 0, 0, 0, 0, 0⟩ ∧
    analyzeDroneTelemetry [] = ⟨0, 0, 0, 0, 0, 0, 0⟩ ∧
    ∀ (M : MathOracle) (frames : List DroneTelemetryFrame),
      frames.length < 2 → analyzeDroneFlightPath M frames = ⟨0, 0, 0, 0⟩ := by
  refine ⟨rfl, rfl, ?_⟩
  intro M frames h
  simp [analyzeDroneFlightPath, h]

/-- C5 (code bug): two `updateMotorParams` calls supplying only `pid_p` do
leave the second `pid_p` in place (last write wins), but the unsupplied
`torque_limit` is overwritten with `undefined` rather than kept at its
prior value 5.0: `updateMotorParams` builds its update object with every
key present, and the object spread copies a present key even when its value
is `undefined`. -/
theorem c5_code_bug_eval :
    ((sessionMotors (updateMotorParams (updateMotorParams initStoreState
        "leg_1_coxa" none (some 1.5) none none)
        "leg_1_coxa" none (some 2.0) none none)).lookup "leg_1_coxa").map
      (fun m => (m.pid_p, m.torque_limit)) = some (some 2.0, none) ∧
    (((sessionMotors initStoreState).lookup "leg_1_coxa").map
      (fun m => m.torque_limit)) = some (some 5.0) ∧
    (none : Option ℚ) ≠ some 5.0 := by decide

/-- C3 (code bug): a stored run's `motor_configs` is the session's live
motors `Map`, not a snapshot — after `runSimulation`, an
`updateMotorParams` on `leg_1_coxa` changes the stored run's `pid_p` for
that joint from 1.0 to 2.0.  (The `physics_config` half of the claim does
hold: `updatePhysics` allocates a fresh object, so the stored run still
sees the default physics after a later configure-physics call.) -/
theorem c3_code_bug_eval :
    (runSimulation initStoreState).runs = [⟨0, 0⟩] ∧
    ((runMotorConfigs (runSimulation initStoreState) ⟨0, 0⟩).lookup
      "leg_1_coxa").map (fun m => m.pid_p) = some (some 1.0) ∧
    ((runMotorConfigs (updateMotorParams (runSimulation initStoreState)
        "leg_1_coxa" none (some 2.0) none none) ⟨0, 0⟩).lookup
      "leg_1_coxa").map (fun m => m.pid_p) = some (some 2.0) ∧
    some (some (2.0 : ℚ)) ≠ some (some (1.0 : ℚ)) ∧
    runPhysicsConfig (updatePhysics (updateMotorParams
        (runSimulation initStoreState) "leg_1_coxa" none (some 2.0) none none)
        ⟨none, some 0.9, none, none⟩) ⟨0, 0⟩ = DEFAULT_PHYSICS := by decide

/-- C6 (amended): both recommendation generators return duplicate-free
lists of length at most 5 — the aerial generator also truncates at 5, not
4. -/
theorem c6_theorem :
    (∀ (events : List SimulationEvent) (physics : PhysicsConfig),
      (generateRecommendations events physics).Nodup ∧
      (generateRecommendations events physics).length ≤ 5) ∧
    (∀ (events : List DroneSimulationEvent) (physics : DronePhysicsConfig),
      (generateDroneRecommendations events physics).Nodup ∧
      (generateDroneRecommendations events physics).length ≤ 5) := by
  constructor
  · intro events physics
    refine ⟨List.Nodup.sublist (List.take_sublist 5 _) ?_, ?_⟩
    · exact jsSetDedupAux_nodup _ []
    · exact List.length_take_le 5 _
  · intro events physics
    refine ⟨List.Nodup.sublist (List.take_sublist 5 _) ?_, ?_⟩
    · exact jsSetDedupAux_nodup _ []
    · exact List.length_take_le 5 _

/-- C6 counterexample: a `wind_warning` (with wind above 5 m/s) plus a
`motor_failure` event yield five distinct aerial recommendations, so the
aerial output has length 5, refuting the claimed cap of 4. -/
theorem c6_counterexample :
    (generateDroneRecommendations c6Events c6Physics).length = 5 ∧
    ¬ (generateDroneRecommendations c6Events c6Physics).length ≤ 4 := by
  decide

/-- C2 (code bug): with a single input frame the sampling stride
`floor(length/10)` is 0, so the event loops of `generateSimulationEvents`
and `generateDroneSimulationEvents` never advance past index 0 and never
terminate — no amount of fuel makes them exit (the fueled model returns
`none` for every fuel). -/
theorem c2_code_bug_eval :
    (∀ fuel : ℕ,
      groundEventLoop [c2Frame] DEFAULT_PHYSICS streams0 0 fuel 0 [] 0 = none) ∧
    (∀ fuel : ℕ,
      droneEventLoop [c2DroneFrame] DEFAULT_DRONE_PHYSICS streams0 0 fuel 0 [] 0
        = none) ∧
    generateSimulationEvents [c2Frame] DEFAULT_PHYSICS streams0 = none ∧
    generateDroneSimulationEvents [c2DroneFrame] DEFAULT_DRONE_PHYSICS streams0
      = none := by
  refine ⟨fun fuel => groundEventLoop_stride_zero _ _ _ (by decide) fuel [] 0,
    fun fuel => droneEventLoop_stride_zero _ _ _ (by decide) fuel [] 0,
    by decide, by decide⟩

/-- C9 (amended): in the cumulative-weight selection loop used by
`shouldInjectFailure` and `shouldInjectDroneFailure`, when exactly one
entry has a non-zero (positive) weight and the selection draw `u` is
strictly between 0 and 1, the selected scenario is that entry.  (At draw
`u = 0` — a value `Math.random()` can return — the loop instead returns the
table's first entry; see the counterexample.) -/
theorem c9_theorem {α : Type} (pre post : List (α × ℚ)) (a : α) (w u : ℚ)
    (hpre : ∀ p ∈ pre, p.2 = 0) (hpost : ∀ p ∈ post, p.2 = 0)
    (hw : 0 < w) (hu0 : 0 < u) (hu1 : u < 1) :
    weightedSelect (pre ++ (a, w) :: post)
      (u * (((pre ++ (a, w) :: post).map Prod.snd).foldl (· + ·) 0)) =
      some (a, w) := by
  have hmapz : ∀ (l : List (α × ℚ)), (∀ p ∈ l, p.2 = 0) →
      ∀ x ∈ l.map Prod.snd, x = 0 := by
    intro l hl x hx
    obtain ⟨p, hp, rfl⟩ := List.mem_map.mp hx
    exact hl p hp
  have htotal : ((pre ++ (a, w) :: post).map Prod.snd).foldl (· + ·) 0 = w := by
    rw [List.map_append, List.foldl_append,
      foldl_add_zeros (pre.map Prod.snd) (hmapz pre hpre) 0]
    simp only [List.map_cons, List.foldl_cons, zero_add]
    exact foldl_add_zeros (post.map Prod.snd) (hmapz post hpost) w
  rw [htotal, weightedSelect_skip_zeros pre hpre _ _ (mul_pos hu0 hw)]
  simp only [weightedSelect]
  rw [if_pos ?le]
  case le =>
    have h1 : u * w - w = (u - 1) * w := by ring
    rw [h1]
    exact le_of_lt (mul_neg_of_neg_of_pos (sub_neg.mpr hu1) hw)

/-- C9 witness: a two-entry table whose only positive weight sits in the
second entry; at draw 1/2 the loop selects that entry. -/
theorem c9_theorem_witness :
    (∀ p ∈ [(("zero" : String), (0 : ℚ))], p.2 = 0) ∧
    (∀ p ∈ ([] : List (String × ℚ)), p.2 = 0) ∧
    (0 : ℚ) < 1 ∧ (0 : ℚ) < 1 / 2 ∧ (1 / 2 : ℚ) < 1 ∧
    weightedSelect ([(("zero" : String), (0 : ℚ))] ++ ("win", 1) :: [])
      ((1 / 2) *
        ((([(("zero" : String), (0 : ℚ))] ++ ("win", 1) :: []).map
          Prod.snd).foldl (· + ·) 0)) = some ("win", 1) :=
  ⟨by decide, by decide, by decide, by decide, by decide,
   c9_theorem [("zero", 0)] [] "win" 1 (1 / 2) (by decide) (by decide)
     (by decide) (by decide) (by decide)⟩

/-- C9 counterexample: with weights `[0, 1]` (the only non-zero entry is
the second) and selection draw 0 — a value `Math.random()` can return —
the loop returns the first, zero-weight entry, not the non-zero one. -/
theorem c9_counterexample :
    weightedSelect [(("a" : String), (0 : ℚ)), ("b", 1)]
      (0 * (([(("a" : String), (0 : ℚ)), ("b", 1)].map Prod.snd).foldl
        (· + ·) 0)) = some ("a", 0) ∧
    some (("a" : String), (0 : ℚ)) ≠ some (("b" : String), (1 : ℚ)) := by
  decide

/-- C4 (amended): `shouldSimulationFail` is true exactly when some event is
critical (so a run's status is failed iff a critical event exists); and for
a frame list where a sampled frame exceeds the rollover thresholds (pitch
35° at index 5) with fewer than 10 earlier events, the generator emits a
rollover event of critical severity at that frame's timestamp and
`shouldSimulationFail` holds on the result. -/
theorem c4_theorem :
    (∀ events : List SimulationEvent,
      shouldSimulationFail events = true ↔
        ∃ e ∈ events, e.severity = .critical) ∧
    generateSimulationEvents c4Frames DEFAULT_PHYSICS streams99 =
      some [⟨500, "stability_warning", .error, []⟩,
            ⟨500, "rollover", .critical, []⟩] ∧
    (⟨500, "rollover", .critical, []⟩ : SimulationEvent) ∈
      [(⟨500, "stability_warning", .error, []⟩ : SimulationEvent),
       ⟨500, "rollover", .critical, []⟩] ∧
    shouldSimulationFail
      [⟨500, "stability_warning", .error, []⟩,
       ⟨500, "rollover", .critical, []⟩] = true := by
  refine ⟨?_, by decide, by decide, by decide⟩
  intro events
  simp [shouldSimulationFail, List.length_pos_iff_exists_mem, List.mem_filter]

/-- C4 counterexample: ten warning events (pitch 22°, 51 °C at samples
1–5) precede the rollover at sampled index 9 (pitch 35°), so the critical
event is cut off by the 10-event truncation and `shouldSimulationFail` is
false on the generator's result even though a sampled frame has
|pitch| > 30°. -/
theorem c4_counterexample :
    ((generateSimulationEvents c4xFrames DEFAULT_PHYSICS streams99).map
      (fun l => (shouldSimulationFail l, l.length))) = some (false, 10) ∧
    ((c4xFrames.get? 9).map
      (fun f => decide (|f.imu.pitch| > 30 ∨ |f.imu.roll| > 25))) =
      some true := by
  decide

theorem jsRound_intCast (z : ℤ) : jsRound ((z : ℚ)) = z := by
  unfold jsRound
  rw [add_comm, Int.floor_add_int]
  norm_num

theorem groundAux_length (ctx : GroundCtx) :
    ∀ (n : ℕ) (st : GState) (i : ℕ), (groundAux ctx st i n).length = n := by
  intro n
  induction n with
  | zero => intro st i; rfl
  | succ n ih =>
    intro st i
    simp only [groundAux, List.length_cons, ih]

theorem groundStep_timestamp (ctx : GroundCtx) (st : GState) (i : ℕ) :
    ((groundStep ctx st i).2).timestamp = jsRound ((i : ℚ) * ctx.dt * 1000) :=
  rfl

theorem groundAux_timestamp (ctx : GroundCtx) :
    ∀ (n : ℕ) (st : GState) (i m : ℕ) (f : TelemetryFrame),
      (groundAux ctx st i n).get? m = some f →
      f.timestamp = jsRound (((i + m : ℕ) : ℚ) * ctx.dt * 1000) := by
  intro n
  induction n with
  | zero => intro st i m f h; simp [groundAux] at h
  | succ n ih =>
    intro st i m f h
    simp only [groundAux] at h
    cases m with
    | zero =>
      rw [List.get?_cons_zero] at h
      obtain rfl : (groundStep ctx st i).2 = f := Option.some.inj h
      rw [groundStep_timestamp]
      norm_num
    | succ m =>
      rw [List.get?_cons_succ] at h
      have hr := ih (groundStep ctx st i).1 (i + 1) m f h
      have heq : (i + 1) + m = i + (m + 1) := by omega
      rw [heq] at hr
      exact hr

/-- C1 (amended): `generateTelemetryStream` returns exactly
`floor(duration * sampleRate)` frames; frame `i`'s timestamp is
`Math.round(1000 * i / rate)`; and whenever `1000 / rate` is an integer
`k` (the rate divides 1000), consecutive timestamps differ by exactly `k`
and increase strictly.  (For rates that do not divide 1000 the rounded
integer timestamps cannot be spaced exactly `1000/rate` apart; see the
counterexample.) -/
theorem c1_theorem (durationSeconds sampleRateHz : ℚ)
    (physics : PhysicsConfig) (motors : List (String × MotorParams))
    (M : MathOracle) (rs : RandStreams) :
    (generateTelemetryStream durationSeconds physics motors sampleRateHz
      M rs).length = (⌊durationSeconds * sampleRateHz⌋).toNat ∧
    (∀ (i : ℕ) (f : TelemetryFrame),
      (generateTelemetryStream durationSeconds physics motors sampleRateHz
        M rs).get? i = some f →
      f.timestamp = jsRound ((i : ℚ) * (1 / sampleRateHz) * 1000)) ∧
    (∀ k : ℕ, 1000 / sampleRateHz = (k : ℚ) →
      ∀ (i : ℕ) (f g : TelemetryFrame),
        (generateTelemetryStream durationSeconds physics motors sampleRateHz
          M rs).get? i = some f →
        (generateTelemetryStream durationSeconds physics motors sampleRateHz
          M rs).get? (i + 1) = some g →
        g.timestamp - f.timestamp = (k : ℤ) ∧ f.timestamp < g.timestamp) := by
  have hlen : (generateTelemetryStream durationSeconds physics motors
      sampleRateHz M rs).length = (⌊durationSeconds * sampleRateHz⌋).toNat := by
    simp only [generateTelemetryStream]
    exact groundAux_length _ _ _ _
  have hts : ∀ (i : ℕ) (f : TelemetryFrame),
      (generateTelemetryStream durationSeconds physics motors sampleRateHz
        M rs).get? i = some f →
      f.timestamp = jsRound ((i : ℚ) * (1 / sampleRateHz) * 1000) := by
    intro i f h
    simp only [generateTelemetryStream] at h
    have := groundAux_timestamp _ _ _ 0 i f h
    simpa using this
  refine ⟨hlen, hts, ?_⟩
  intro k hk i f g hf hg
  rcases Nat.eq_zero_or_pos k with hk0 | hkpos
  · exfalso
    subst hk0
    have hr : sampleRateHz = 0 := by simpa using hk
    subst hr
    simp only [mul_zero, Int.floor_zero, Int.toNat_zero] at hlen
    have hi := (List.get?_eq_some.mp hf).1
    omega
  · have hf' := hts i f hf
    have hg' := hts (i + 1) g hg
    have harith : ∀ j : ℕ, (j : ℚ) * (1 / sampleRateHz) * 1000 =
        ((j * k : ℕ) : ℚ) := by
      intro j
      have : (j : ℚ) * (1 / sampleRateHz) * 1000 =
          (j : ℚ) * (1000 / sampleRateHz) := by ring
      rw [this, hk]
      push_cast
      ring
    rw [harith i] at hf'
    rw [harith (i + 1)] at hg'
    have hfi : f.timestamp = ((i * k : ℕ) : ℤ) := by
      rw [hf']
      exact_mod_cast jsRound_intCast ((i * k : ℕ) : ℤ)
    have hgi : g.timestamp = (((i + 1) * k : ℕ) : ℤ) := by
      rw [hg']
      exact_mod_cast jsRound_intCast (((i + 1) * k : ℕ) : ℤ)
    constructor
    · rw [hfi, hgi]
      push_cast
      ring
    · rw [hfi, hgi]
      have : i * k < (i + 1) * k :=
        (Nat.mul_lt_mul_right hkpos).mpr (Nat.lt_succ_self i)
      exact_mod_cast this

/-- C1 counterexample: at duration 1 s and sample rate 3 Hz the first two
timestamps are 0 and 333 ms — integer timestamps 333 ms apart, not exactly
`1000/3` ms apart as the claim requires for every positive rate. -/
theorem c1_counterexample :
    (((generateTelemetryStream 1 DEFAULT_PHYSICS [] 3 oracle0
      streams0).get? 0).map (fun f => f.timestamp)) = some 0 ∧
    (((generateTelemetryStream 1 DEFAULT_PHYSICS [] 3 oracle0
      streams0).get? 1).map (fun f => f.timestamp)) = some 333 ∧
    ¬ (((333 : ℚ) - 0) = 1000 / 3) := by
  have hlen : (generateTelemetryStream 1 DEFAULT_PHYSICS [] 3 oracle0
      streams0).length = 3 := by
    simp only [generateTelemetryStream]
    rw [groundAux_length]
    decide
  have hts : ∀ (i : ℕ) (f : TelemetryFrame),
      (generateTelemetryStream 1 DEFAULT_PHYSICS [] 3 oracle0
        streams0).get? i = some f →
      f.timestamp = jsRound ((i : ℚ) * (1 / 3) * 1000) := by
    intro i f h
    simp only [generateTelemetryStream] at h
    have := groundAux_timestamp _ _ _ 0 i f h
    simpa using this
  refine ⟨?_, ?_, by decide⟩
  · cases h0 : (generateTelemetryStream 1 DEFAULT_PHYSICS [] 3 oracle0
        streams0).get? 0 with
    | none =>
      exfalso
      have := List.get?_eq_none.mp h0
      omega
    | some f =>
      show some f.timestamp = some 0
      rw [hts 0 f h0]
      decide
  · cases h1 : (generateTelemetryStream 1 DEFAULT_PHYSICS [] 3 oracle0
        streams0).get? 1 with
    | none =>
      exfalso
      have := List.get?_eq_none.mp h1
      omega
    | some f =>
      show some f.timestamp = some 333
      rw [hts 1 f h1]
      decide

theorem clamp_bounds (x lo hi : ℚ) (h : lo ≤ hi) :
    lo ≤ clamp x lo hi ∧ clamp x lo hi ≤ hi := by
  unfold clamp
  exact ⟨le_min (le_trans (le_max_right x lo) (le_refl _)) h |>.trans_eq rfl,
    min_le_right _ _⟩

theorem jsRound_mono {a b : ℚ} (h : a ≤ b) : jsRound a ≤ jsRound b :=
  Int.floor_mono (by linarith)

theorem jsRound_bounds (a b : ℤ) (q : ℚ) (ha : (a : ℚ) ≤ q)
    (hb : q ≤ (b : ℚ)) : a ≤ jsRound q ∧ jsRound q ≤ b := by
  constructor
  · calc a = jsRound ((a : ℤ) : ℚ) := (jsRound_intCast a).symm
      _ ≤ jsRound q := jsRound_mono ha
  · calc jsRound q ≤ jsRound ((b : ℤ) : ℚ) := jsRound_mono hb
      _ = b := jsRound_intCast b

theorem droneAux_get? (ctx : DroneCtx) :
    ∀ (n : ℕ) (st : DState) (i m : ℕ) (f : DroneTelemetryFrame),
      (droneAux ctx st i n).get? m = some f →
      ∃ st', f = (droneStep ctx st' (i + m)).2 := by
  intro n
  induction n with
  | zero => intro st i m f h; simp [droneAux] at h
  | succ n ih =>
    intro st i m f h
    simp only [droneAux] at h
    cases m with
    | zero =>
      rw [List.get?_cons_zero] at h
      exact ⟨st, (Option.some.inj h).symm⟩
    | succ m =>
      rw [List.get?_cons_succ] at h
      obtain ⟨st', hst⟩ := ih (droneStep ctx st i).1 (i + 1) m f h
      refine ⟨st', ?_⟩
      rw [hst]
      congr 2
      omega

theorem droneStep_rotor_speeds (ctx : DroneCtx) (st : DState) (i : ℕ) :
    ((droneStep ctx st i).2).rotor_speeds =
      (dronePhaseUpdate ctx st ((i : ℚ) * ctx.dt)
        (flightPhaseAt ctx.d ((i : ℚ) * ctx.dt))).rotors.map jsRound :=
  rfl

theorem dronePhaseUpdate_rotors_bounds (ctx : DroneCtx) (st : DState)
    (t : ℚ) (ph : FlightPhase)
    (hph : ph = FlightPhase.takeoff ∨ ph = FlightPhase.waypoint) :
    ∀ q ∈ (dronePhaseUpdate ctx st t ph).rotors, 1000 ≤ q ∧ q ≤ 8000 := by
  rcases hph with rfl | rfl
  · intro q hq
    simp only [dronePhaseUpdate, List.mem_map] at hq
    obtain ⟨r, _, rfl⟩ := hq
    exact clamp_bounds _ _ _ (by norm_num)
  · intro q hq
    simp only [dronePhaseUpdate, List.mem_map] at hq
    obtain ⟨r, _, rfl⟩ := hq
    exact clamp_bounds _ _ _ (by norm_num)

/-- C7 (amended): every frame generated during the takeoff or waypoint
phases has all rotor RPM values inside [1000, 8000] (those arms clamp).
The hover arm sets `4500 + gaussianNoise(0, 100)` without clamping and the
landing arm lowers the clamp floor to 0 near the ground, so the claimed
bound over every phase fails — see the counterexample. -/
theorem c7_theorem (durationSeconds : ℚ) (physics : DronePhysicsConfig)
    (sampleRateHz : ℚ) (M : MathOracle) (rs : RandStreams) (i : ℕ)
    (f : DroneTelemetryFrame)
    (hf : (generateDroneTelemetryStream durationSeconds physics sampleRateHz
      M rs).get? i = some f)
    (hphase : flightPhaseAt durationSeconds ((i : ℚ) * (1 / sampleRateHz)) =
        FlightPhase.takeoff ∨
      flightPhaseAt durationSeconds ((i : ℚ) * (1 / sampleRateHz)) =
        FlightPhase.waypoint)
    (rpm : ℤ) (hrpm : rpm ∈ f.rotor_speeds) : 1000 ≤ rpm ∧ rpm ≤ 8000 := by
  simp only [generateDroneTelemetryStream] at hf
  obtain ⟨st', rfl⟩ := droneAux_get? _ _ _ 0 i f hf
  rw [Nat.zero_add] at hrpm
  rw [droneStep_rotor_speeds] at hrpm
  simp only [List.mem_map] at hrpm
  obtain ⟨q, hq, rfl⟩ := hrpm
  have hb := dronePhaseUpdate_rotors_bounds _ st' _ _ hphase q hq
  exact jsRound_bounds 1000 8000 q (by exact_mod_cast hb.1)
    (by exact_mod_cast hb.2)

/-- C7 witness: the first frame of a 3-sample flight is in the takeoff
phase and its rotor value 1000 obeys the bounds. -/
theorem c7_theorem_witness :
    (generateDroneTelemetryStream 10 DEFAULT_DRONE_PHYSICS (3 / 10) oracle0
      streams0).get? 0 = some c7WitnessFrame ∧
    (flightPhaseAt 10 (((0 : ℕ) : ℚ) * (1 / (3 / 10))) =
        FlightPhase.takeoff ∨
      flightPhaseAt 10 (((0 : ℕ) : ℚ) * (1 / (3 / 10))) =
        FlightPhase.waypoint) ∧
    (1000 : ℤ) ∈ c7WitnessFrame.rotor_speeds ∧
    (1000 ≤ (1000 : ℤ) ∧ (1000 : ℤ) ≤ 8000) :=
  ⟨by decide, Or.inl (by decide), by decide,
   c7_theorem 10 DEFAULT_DRONE_PHYSICS (3 / 10) oracle0 streams0 0
     c7WitnessFrame (by decide) (Or.inl (by decide)) 1000 (by decide)⟩

/-- C7 counterexample: in the hover phase (frame 1 of a 3-sample flight)
a standard-normal draw of 40 puts rotor 0 at 4500 + 4000 = 8500 RPM, above
the claimed maximum of 8000 — the hover arm does not clamp. -/
theorem c7_counterexample :
    ((generateDroneTelemetryStream 10 DEFAULT_DRONE_PHYSICS (3 / 10) oracle0
      c7Gauss).get? 1).map (fun f => f.rotor_speeds) =
      some [8500, 4500, 4500, 4500] ∧
    ¬ ((8500 : ℤ) ≤ 8000) := by decide

theorem effMotor_agree {m1 m2 : List (String × MotorParams)}
    (h : MotorsAgreeExceptI m1 m2) : ∀ j, effMotor m1 j = effMotor m2 j := by
  unfold MotorsAgreeExceptI at h
  induction h with
  | nil => intro j; rfl
  | @cons a b l1 l2 hab htail ih =>
    intro j
    obtain ⟨ka, va⟩ := a
    obtain ⟨kb, vb⟩ := b
    obtain ⟨hk, hj, ht, hp, hd, hv⟩ := hab
    simp only at hk
    subst hk
    simp only [effMotor, List.lookup]
    cases hbeq : (j == ka)
    · simp only [hbeq]
      exact ih j
    · simp only [hbeq]
      rw [hp, hd, ht]

/-- C8: the ground telemetry stream does not depend on the `pid_i` gains —
for motor maps agreeing in everything except `pid_i` (same duration,
physics, rate, oracle and random draws), the generated frame sequences are
identical: the control loop reads only `pid_p`, `pid_d` and
`torque_limit`. -/
theorem c8_theorem (durationSeconds sampleRateHz : ℚ)
    (physics : PhysicsConfig) (M : MathOracle) (rs : RandStreams)
    (m1 m2 : List (String × MotorParams)) (h : MotorsAgreeExceptI m1 m2) :
    generateTelemetryStream durationSeconds physics m1 sampleRateHz M rs =
    generateTelemetryStream durationSeconds physics m2 sampleRateHz M rs := by
  have he : effMotor m1 = effMotor m2 := funext (effMotor_agree h)
  unfold generateTelemetryStream
  rw [he]

/-- C8 witness: the one-joint maps differing only in `pid_i` (0.1 vs 7)
generate identical streams. -/
theorem c8_theorem_witness :
    MotorsAgreeExceptI c8m1 c8m2 ∧
    generateTelemetryStream 1 DEFAULT_PHYSICS c8m1 50 oracle0 streams0 =
    generateTelemetryStream 1 DEFAULT_PHYSICS c8m2 50 oracle0 streams0 :=
  ⟨by simp [MotorsAgreeExceptI, c8m1, c8m2],
   c8_theorem 1 50 DEFAULT_PHYSICS oracle0 streams0 c8m1 c8m2
     (by simp [MotorsAgreeExceptI, c8m1, c8m2])⟩
